import Mathlib

/-!
Verification of the Gift Aid claim submission pipeline.

This file gives a shallow embedding, in Lean 4, of the pieces of the
Gift-Aid-Portal repository that the specification talks about:

* the HTTP transport client (`api/_utils/hmrcTransport.ts`),
* the envelope builders (`api/_utils/hmrcXml.ts`, several revisions of the
  same module are present in the repository; the revision is noted on each
  definition via its `HMRC_XML_VERSION` marker),
* the claim lifecycle handlers (`api/admin/claims/item.ts`,
  `add-item.ts`, `update-item.ts`, `delete-item.ts`, and the submit
  handler that posts to the test transaction engine),
* the credential vault (`api/_utils/crypto.ts`) and the gateway
  connection save handler (`api/hmrc/connection/save.ts`).

External collaborators (the `fetch` HTTP client, the Node `crypto`
AES-256-GCM primitive and SHA-256 digest, `JSON.stringify`/`JSON.parse`,
and the JavaScript `Date` parser) are modelled as explicit parameters:
their outcome or function value is an input of the embedded definition,
so every theorem quantifies over their behaviour except where a
documented contract of the collaborator is taken as a hypothesis.

Numbers that the source manipulates as JavaScript numbers (donation
amounts and totals) are modelled as rationals.
-/

namespace GiftAidPortal

/-! ## Basic string utilities shared by the source files -/

/-- One character of XML escaping.  The source escapes with five sequential
global single-character regex replacements (`&` first, then `<`, `>`, `"`,
the apostrophe); since none of the replacement texts contains a character
that a later pass rewrites, the sequential passes are equivalent to this
single character-wise map. -/
def escChar (c : Char) : String :=
  if c = '&' then "&amp;"
  else if c = '<' then "&lt;"
  else if c = '>' then "&gt;"
  else if c = '"' then "&quot;"
  else if c = Char.ofNat 39 then "&apos;"
  else String.singleton c

/-- `xmlEscape` from `api/_utils/hmrcXml.ts` (identical in every revision). -/
def xmlEscape (s : String) : String :=
  String.join (s.data.map escChar)

/-- The regex test `/^\d{4}-\d{2}-\d{2}$/` used by `normalizeDate` and
`earliestDonationDate`. -/
def isIsoDateShape (s : String) : Bool :=
  match s.data with
  | [y1, y2, y3, y4, d1, m1, m2, d2, dd1, dd2] =>
    y1.isDigit && y2.isDigit && y3.isDigit && y4.isDigit &&
    d1 = '-' && m1.isDigit && m2.isDigit && d2 = '-' && dd1.isDigit && dd2.isDigit
  | _ => false

/-- `String(n).padStart(2, "0")` for the month/day fields. -/
def pad2 (n : Nat) : String :=
  if n < 10 then "0" ++ toString n else toString n

/-- `String.prototype.trim`: strip leading and trailing whitespace. -/
def jsTrim (s : String) : String :=
  ⟨((s.data.dropWhile Char.isWhitespace).reverse.dropWhile Char.isWhitespace).reverse⟩

/-- `String.prototype.toUpperCase` (character-wise upper-casing; the
stored fields are ASCII). -/
def jsToUpper (s : String) : String :=
  ⟨s.data.map Char.toUpper⟩

/-- `normalizeDate` from `api/_utils/hmrcXml.ts`: trim, keep an
`YYYY-MM-DD` string as is, otherwise fall back to the JavaScript `Date`
parser (an external collaborator, passed in as `jsDate`, returning the
UTC year/month/day on success) and reformat; unparseable input yields
`""`. -/
def normalizeDate (jsDate : String → Option (Nat × Nat × Nat)) (d : String) : String :=
  let s := jsTrim d
  if s = "" then ""
  else if isIsoDateShape s then s
  else
    match jsDate s with
    | none => ""
    | some (y, m, dd) => toString y ++ "-" ++ pad2 m ++ "-" ++ pad2 dd

/-! ## TransportClient (`api/_utils/hmrcTransport.ts`) -/

/-- The possible ways the `fetch` call inside `httpPostXml` can end:
the server replies (with any status), the abort signal fires because the
25s timer elapsed (the promise rejects with an `AbortError`), or the
request fails at the network level (the promise rejects with a network
error). -/
inductive FetchOutcome where
  | response (ok : Bool) (status : Nat) (bodyText : String) (contentType : Option String)
  | abortError
  | networkError (msg : String)
deriving DecidableEq, Repr

/-- The `HttpResult` record returned by `httpPostXml`. -/
structure HttpResult where
  ok : Bool
  status : Nat
  bodyText : String
  contentType : Option String
deriving DecidableEq, Repr

/-- The request `httpPostXml` issues: method, headers, body, and the
timeout installed on the abort controller. -/
structure FetchRequest where
  url : String
  method : String
  contentTypeHeader : String
  acceptHeader : String
  body : String
  timeoutMs : Nat
deriving DecidableEq, Repr

/-- The default `timeoutMs` of `httpPostXml`. -/
def httpPostXmlDefaultTimeoutMs : Nat := 25000

/-- The request built by `httpPostXml url xml` (with the default timeout). -/
def httpPostXmlRequest (url xml : String) : FetchRequest :=
  { url := url
    method := "POST"
    contentTypeHeader := "text/xml; charset=utf-8"
    acceptHeader := "text/xml, application/xml, */*"
    body := xml
    timeoutMs := httpPostXmlDefaultTimeoutMs }

/-- `httpPostXml` from `api/_utils/hmrcTransport.ts`, as a function of the
fetch outcome.  When the server replies, the result record carries
`res.ok`, `res.status`, the body text and the content-type header; the
`try { ... } finally { clearTimeout(timer) }` block has no `catch`, so a
rejection of the fetch promise (timeout abort or network failure)
propagates to the caller as a thrown error. -/
def httpPostXml (fetchResult : FetchOutcome) : Except String HttpResult :=
  match fetchResult with
  | .response ok status bodyText contentType =>
    .ok { ok := ok, status := status, bodyText := bodyText, contentType := contentType }
  | .abortError => .error "AbortError"
  | .networkError msg => .error msg

/-- `HMRC_TEST_SUBMIT_URL`. -/
def HMRC_TEST_SUBMIT_URL : String :=
  "https://test-transaction-engine.tax.service.gov.uk/submission"

/-! ## Money formatting

`formatMoney` renders a number with `toFixed(2)`.  Amounts are modelled as
rationals; the model rounds half up, which agrees with `toFixed` on the
decimal amounts the portal stores. -/

/-- `formatMoney` from `api/_utils/hmrcXml.ts`: two decimal digits.  The
cent value is `q * 100` rounded half up, computed on the numerator and
denominator directly. -/
def formatMoney (q : ℚ) : String :=
  let cents : ℤ := (2 * (q.num * 100) + (q.den : ℤ)) / (2 * (q.den : ℤ))
  let sign := if cents < 0 then "-" else ""
  let a := cents.natAbs
  sign ++ toString (a / 100) ++ "." ++ pad2 (a % 100)

/-! ## Template replacement (`replaceAllPlaceholders`)

The source replaces every occurrence of `{{KEY}}` with
`template.split(token).join(value)`, one pass per entry of `vars`.  A
split-then-join replaces the non-overlapping occurrences scanning left to
right and never rescans the substituted value within the same pass; the
fuel-indexed scan below does exactly that (the fuel, set to the length of
the scanned text, never runs out because every step consumes at least one
character). -/

def replaceTokAux (tok repl : List Char) : Nat → List Char → List Char
  | 0, l => l
  | _, [] => []
  | fuel+1, c :: rest =>
    if tok.isPrefixOf (c :: rest) then
      repl ++ replaceTokAux tok repl fuel (List.drop tok.length (c :: rest))
    else
      c :: replaceTokAux tok repl fuel rest

/-- Replace every occurrence of `tok` in `s` by `repl`
(`s.split(tok).join(repl)` in the source). -/
def replaceTok (s tok repl : String) : String :=
  ⟨replaceTokAux tok.data repl.data s.data.length s.data⟩

/-- `replaceAllPlaceholders` from `api/_utils/hmrcXml.ts`: one replacement
pass per `vars` entry, in entry order (`Object.entries` preserves the
insertion order of the literal). -/
def replaceAllPlaceholders (template : String) (vars : List (String × String)) : String :=
  vars.foldl (fun out kv => replaceTok out ("\x7b\x7b" ++ kv.1 ++ "\x7d\x7d") kv.2) template

/-- Scan of `strContains`: does `needle` occur at some position of `hay`? -/
def containsAux (needle : List Char) : List Char → Bool
  | [] => needle.isPrefixOf ([] : List Char)
  | c :: rest => needle.isPrefixOf (c :: rest) || containsAux needle rest

/-- `hay.includes(needle)` / `hay.indexOf(needle) !== -1`. -/
def strContains (hay needle : String) : Bool :=
  containsAux needle.data hay.data

end GiftAidPortal

namespace GiftAidPortal.XmlV4

/-!
The first revision of `api/_utils/hmrcXml.ts` bundled in the repository,
marked `HMRC_XML_VERSION = "2026-01-18-v4-split-donor-fields-no-replaceAll"`.
The datastore lookups (`claims`, `charities`, `claim_items` via supabase)
are external; the rows they return are inputs of the embedded generator.
The repository contains no `api/_hmrc_templates/giftAidClaimTemplate.xml`
file, so `loadTemplateOrFallback` always returns the built-in fallback
template, reproduced below line by line.
-/

open GiftAidPortal

structure ClaimRow where
  id : String
  charity_id : String
  period_start : Option String
  period_end : Option String
deriving DecidableEq, Repr

structure CharityRow where
  id : String
  name : String
  contact_email : Option String
  charity_id : Option String
deriving DecidableEq, Repr

structure ClaimItemRow where
  id : String
  donor_title : Option String
  donor_first_name : String
  donor_last_name : String
  donor_address : String
  donor_postcode : String
  donation_date : String
  donation_amount : ℚ
deriving DecidableEq, Repr

/-- The ambient environment configuration the generator reads
(`process.env.HMRC_*`); each lookup may be unset. -/
structure EnvConfig where
  gatewayTest : Option String
  senderId : Option String
  authValue : Option String
  irmark : Option String
  officialFore : Option String
  officialSur : Option String
  officialPostcode : Option String
  officialPhone : Option String
  regName : Option String
  regNo : Option String
deriving DecidableEq, Repr

/-- `buildGadRowXml` of the v4 revision (lines 209–228 of the module):
the donor fields are escaped and interpolated as stored — in particular
the postcode is NOT trimmed or upper-cased in this revision. -/
def buildGadRowXml (jsDate : String → Option (Nat × Nat × Nat)) (item : ClaimItemRow) : String :=
  let donationDate := normalizeDate jsDate item.donation_date
  let amount := formatMoney item.donation_amount
  String.intercalate "\n"
    [ "            <GAD>",
      "              <Donor>",
      "                <Fore>" ++ xmlEscape item.donor_first_name ++ "</Fore>",
      "                <Sur>" ++ xmlEscape item.donor_last_name ++ "</Sur>",
      "                <House>" ++ xmlEscape item.donor_address ++ "</House>",
      "                <Postcode>" ++ xmlEscape item.donor_postcode ++ "</Postcode>",
      "              </Donor>",
      "              <Date>" ++ xmlEscape donationDate ++ "</Date>",
      "              <Total>" ++ xmlEscape amount ++ "</Total>",
      "            </GAD>" ]

/-- `earliestDonationDate` of the v4 revision: normalize every donation
date, keep the ones shaped `YYYY-MM-DD`, sort (JavaScript default sort is
lexicographic, which on this shape is date order) and take the first,
falling back to `fallback` when none remains (`dates[0] || fallback`; the
kept dates are never the empty string, so falsiness coincides with
absence). -/
def earliestDonationDate (jsDate : String → Option (Nat × Nat × Nat))
    (items : List ClaimItemRow) (fallback : String) : String :=
  let dates :=
    ((items.map (fun it => normalizeDate jsDate it.donation_date)).filter
      (fun d => isIsoDateShape d)).mergeSort (fun a b => decide (a ≤ b))
  dates.headD fallback

/-- Validation step 4 of the v4 generator, for one item (errors carry the
offending field, in source order). -/
def validateItem (jsDate : String → Option (Nat × Nat × Nat)) (it : ClaimItemRow) :
    Except String Unit :=
  if jsTrim it.donor_first_name = "" then
    .error ("Item " ++ it.id ++ ": donor_first_name is required")
  else if jsTrim it.donor_last_name = "" then
    .error ("Item " ++ it.id ++ ": donor_last_name is required")
  else if jsTrim it.donor_address = "" then
    .error ("Item " ++ it.id ++ ": donor_address is required")
  else if jsTrim it.donor_postcode = "" then
    .error ("Item " ++ it.id ++ ": donor_postcode is required")
  else if normalizeDate jsDate it.donation_date = "" then
    .error ("Item " ++ it.id ++ ": donation_date is required (YYYY-MM-DD)")
  else if it.donation_amount ≤ 0 then
    .error ("Item " ++ it.id ++ ": donation_amount must be > 0")
  else .ok ()

/-- Validation step 4 over the item list (first failure wins). -/
def validateItems (jsDate : String → Option (Nat × Nat × Nat)) :
    List ClaimItemRow → Except String Unit
  | [] => .ok ()
  | it :: rest =>
    match validateItem jsDate it with
    | .error e => .error e
    | .ok _ => validateItems jsDate rest

/-- The `vars` record of the v4 generator (lines 312–342), in source
order.  `CORRELATION_ID` is the claim id and `GATEWAY_TIMESTAMP` the
current ISO timestamp, unconditionally: no configuration leaves either
blank. -/
def giftAidVars (env : EnvConfig) (nowIso : String) (claimRow : ClaimRow)
    (charid periodEnd donationRowsXml earliestGA : String) (charityRow : CharityRow) :
    List (String × String) :=
  [ ("CORRELATION_ID", xmlEscape claimRow.id),
    ("GATEWAY_TEST", xmlEscape (env.gatewayTest.getD "1")),
    ("GATEWAY_TIMESTAMP", xmlEscape nowIso),
    ("SENDER_ID", xmlEscape (env.senderId.getD "GIFTAIDCHAR")),
    ("AUTH_VALUE", xmlEscape (env.authValue.getD "REPLACE_ME")),
    ("CHARID", xmlEscape charid),
    ("PERIOD_END", xmlEscape periodEnd),
    ("IRMARK", xmlEscape (env.irmark.getD "PENDING_IRMARK")),
    ("OFFICIAL_FORE", xmlEscape (env.officialFore.getD "Gift")),
    ("OFFICIAL_SUR", xmlEscape (env.officialSur.getD "Aided")),
    ("OFFICIAL_POSTCODE", xmlEscape (env.officialPostcode.getD "AA1 1AA")),
    ("OFFICIAL_PHONE", xmlEscape (env.officialPhone.getD "00000000000")),
    ("ORG_NAME", xmlEscape charityRow.name),
    ("REG_NAME", xmlEscape (env.regName.getD "CCEW")),
    ("REG_NO", xmlEscape (env.regNo.getD "UNKNOWN")),
    ("DONATION_ROWS", if donationRowsXml = "" then "" else donationRowsXml),
    ("EARLIEST_GA_DATE", xmlEscape earliestGA) ]

/-- The built-in fallback template of the v4 revision, reproduced line by
line (joining these lines with a newline yields the source's template
literal verbatim). -/
def fallbackTemplateLines : List String :=
  [ "<?xml version=\"1.0\" encoding=\"UTF-8\"?>",
    "<GovTalkMessage xmlns=\"http://www.govtalk.gov.uk/CM/envelope\">",
    "  <EnvelopeVersion>2.0</EnvelopeVersion>",
    "  <Header>",
    "    <MessageDetails>",
    "      <Class>HMRC-CHAR-CLM</Class>",
    "      <Qualifier>request</Qualifier>",
    "      <Function>submit</Function>",
    "      <CorrelationID>\x7b\x7bCORRELATION_ID\x7d\x7d</CorrelationID>",
    "      <Transformation>XML</Transformation>",
    "      <GatewayTest>\x7b\x7bGATEWAY_TEST\x7d\x7d</GatewayTest>",
    "      <GatewayTimestamp>\x7b\x7bGATEWAY_TIMESTAMP\x7d\x7d</GatewayTimestamp>",
    "    </MessageDetails>",
    "    <SenderDetails>",
    "      <IDAuthentication>",
    "        <SenderID>\x7b\x7bSENDER_ID\x7d\x7d</SenderID>",
    "        <Authentication>",
    "          <Method>clear</Method>",
    "          <Role>principal</Role>",
    "          <Value>\x7b\x7bAUTH_VALUE\x7d\x7d</Value>",
    "        </Authentication>",
    "      </IDAuthentication>",
    "    </SenderDetails>",
    "  </Header>",
    "",
    "  <GovTalkDetails>",
    "    <Keys>",
    "      <Key Type=\"CHARID\">\x7b\x7bCHARID\x7d\x7d</Key>",
    "    </Keys>",
    "    <TargetDetails>",
    "      <Organisation>HMRC</Organisation>",
    "    </TargetDetails>",
    "    <ChannelRouting>",
    "      <Channel>",
    "        <URI>0000</URI>",
    "        <Product>Gift Aided Portal</Product>",
    "        <Version>1.0</Version>",
    "      </Channel>",
    "    </ChannelRouting>",
    "  </GovTalkDetails>",
    "",
    "  <Body>",
    "    <IRenvelope xmlns=\"http://www.govtalk.gov.uk/taxation/charities/r68/2\">",
    "      <IRheader>",
    "        <Keys>",
    "          <Key Type=\"CHARID\">\x7b\x7bCHARID\x7d\x7d</Key>",
    "        </Keys>",
    "        <PeriodEnd>\x7b\x7bPERIOD_END\x7d\x7d</PeriodEnd>",
    "        <DefaultCurrency>GBP</DefaultCurrency>",
    "        <IRmark Type=\"generic\">\x7b\x7bIRMARK\x7d\x7d</IRmark>",
    "        <Sender>Individual</Sender>",
    "      </IRheader>",
    "",
    "      <R68>",
    "        <AuthOfficial>",
    "          <OffName>",
    "            <Fore>\x7b\x7bOFFICIAL_FORE\x7d\x7d</Fore>",
    "            <Sur>\x7b\x7bOFFICIAL_SUR\x7d\x7d</Sur>",
    "          </OffName>",
    "          <OffID>",
    "            <Postcode>\x7b\x7bOFFICIAL_POSTCODE\x7d\x7d</Postcode>",
    "          </OffID>",
    "          <Phone>\x7b\x7bOFFICIAL_PHONE\x7d\x7d</Phone>",
    "        </AuthOfficial>",
    "",
    "        <Declaration>yes</Declaration>",
    "",
    "        <Claim>",
    "          <OrgName>\x7b\x7bORG_NAME\x7d\x7d</OrgName>",
    "          <HMRCref>\x7b\x7bCHARID\x7d\x7d</HMRCref>",
    "",
    "          <Regulator>",
    "            <RegName>\x7b\x7bREG_NAME\x7d\x7d</RegName>",
    "            <RegNo>\x7b\x7bREG_NO\x7d\x7d</RegNo>",
    "          </Regulator>",
    "",
    "          <Repayment>",
    "\x7b\x7bDONATION_ROWS\x7d\x7d",
    "            <EarliestGAdate>\x7b\x7bEARLIEST_GA_DATE\x7d\x7d</EarliestGAdate>",
    "          </Repayment>",
    "",
    "          <GASDS>",
    "            <ConnectedCharities>no</ConnectedCharities>",
    "            <CommBldgs>no</CommBldgs>",
    "          </GASDS>",
    "        </Claim>",
    "      </R68>",
    "    </IRenvelope>",
    "  </Body>",
    "</GovTalkMessage>",
    "" ]

/-- The fallback template as the single string literal the source holds. -/
def fallbackTemplate : String := String.intercalate "\n" fallbackTemplateLines

/-- The v4 `generateHmrcGiftAidXml`, as a function of the datastore lookup
results and ambient configuration.  Steps in source order: claim id
check, claim lookup, `period_end` normalization, charity lookup, CHARID
check, item lookup (empty list rejected), per-item validation, donation
rows, earliest date (fallback: the normalized `period_end`), template
variables, placeholder substitution, leftover-placeholder safety check. -/
def generateHmrcGiftAidXml (jsDate : String → Option (Nat × Nat × Nat))
    (env : EnvConfig) (nowIso : String) (claimId : String)
    (claim : Option ClaimRow) (charity : Option CharityRow)
    (items : List ClaimItemRow) : Except String String :=
  let id := jsTrim claimId
  if id = "" then .error "claimId is required"
  else
    match claim with
    | none => .error "Claim not found"
    | some claimRow =>
      let periodEnd := normalizeDate jsDate (claimRow.period_end.getD "")
      if periodEnd = "" then
        .error "Claim period_end is missing or invalid (expected YYYY-MM-DD)"
      else
        match charity with
        | none => .error "Charity not found"
        | some charityRow =>
          let charid := jsTrim (charityRow.charity_id.getD "")
          if charid = "" then
            .error "Charity is missing charity_id (HMRC CHARID). This must be set during charity setup."
          else if items = [] then
            .error "No donation items found for this claim"
          else
            match validateItems jsDate items with
            | .error e => .error e
            | .ok _ =>
              let donationRowsXml := String.intercalate "\n" (items.map (buildGadRowXml jsDate))
              let earliestGA := earliestDonationDate jsDate items periodEnd
              let vars := giftAidVars env nowIso claimRow charid periodEnd donationRowsXml earliestGA charityRow
              let xml := replaceAllPlaceholders fallbackTemplate vars
              if strContains xml "\x7b\x7b" then
                .error "XML template still has unreplaced placeholders."
              else .ok xml

end GiftAidPortal.XmlV4

namespace GiftAidPortal.XmlV2

/-!
The revision of `api/_utils/hmrcXml.ts` marked
`HMRC_XML_VERSION = "2026-01-26-v2"` — the one that introduces
`normalizePostcode` and `normalizeHmrcCharId` and applies them when
building donation rows.
-/

open GiftAidPortal

structure GadItem where
  donor_first_name : String
  donor_last_name : String
  donor_address : String
  donor_postcode : String
  donation_date : String
  donation_amount : ℚ
deriving DecidableEq, Repr

/-- `normalizePostcode` (v2 revision): trim, then upper-case. -/
def normalizePostcode (postcode : String) : String :=
  jsToUpper (jsTrim postcode)

/-- `buildGadRowXml` of the v2 revision: the postcode is normalized with
`normalizePostcode` and names/address are trimmed before escaping. -/
def buildGadRowXml (jsDate : String → Option (Nat × Nat × Nat)) (item : GadItem) : String :=
  let donationDate := normalizeDate jsDate item.donation_date
  let amount := formatMoney item.donation_amount
  let postcode := normalizePostcode item.donor_postcode
  let address := jsTrim item.donor_address
  String.intercalate "\n"
    [ "            <GAD>",
      "              <Donor>",
      "                <Fore>" ++ xmlEscape (jsTrim item.donor_first_name) ++ "</Fore>",
      "                <Sur>" ++ xmlEscape (jsTrim item.donor_last_name) ++ "</Sur>",
      "                <House>" ++ xmlEscape address ++ "</House>",
      "                <Postcode>" ++ xmlEscape postcode ++ "</Postcode>",
      "              </Donor>",
      "              <Date>" ++ xmlEscape donationDate ++ "</Date>",
      "              <Total>" ++ xmlEscape amount ++ "</Total>",
      "            </GAD>" ]

end GiftAidPortal.XmlV2

namespace GiftAidPortal

/-! ## First-occurrence string replacement

`String.prototype.replace` with a string (non-regex) pattern replaces only
the FIRST occurrence; the mode-aware `hmrcXml.ts` revision uses it as
`new Date().toISOString().replace("Z", "")`. -/

def replaceOnceAux (tok repl : List Char) : Nat → List Char → List Char
  | 0, l => l
  | _, [] => []
  | fuel+1, c :: rest =>
    if tok.isPrefixOf (c :: rest) then
      repl ++ List.drop tok.length (c :: rest)
    else
      c :: replaceOnceAux tok repl fuel rest

/-- `s.replace(tok, repl)` with a string pattern: replace the first
occurrence of `tok` in `s` (if any) by `repl`. -/
def jsReplaceOnce (s tok repl : String) : String :=
  ⟨replaceOnceAux tok.data repl.data s.data.length s.data⟩

end GiftAidPortal

namespace GiftAidPortal.XmlModes

/-!
The mode-aware revision of `api/_utils/hmrcXml.ts`, marked
`HMRC_XML_VERSION = "2026-01-28-v1-ets-creds-and-ts-modes"`
(`src/unnamed/part_014`).  This revision introduces the explicit gateway
mode enum: `ETS` (External Test Service), `LIVE` (live Transaction
Engine) and `LTS` (Local Test Service), selected by the environment
variable `HMRC_XML_MODE`.  The header fields are computed per mode:
`correlationId` is always the empty string, and `gatewayTimestamp` is
blank in ETS/LIVE but populated (the current ISO timestamp with the
trailing `"Z"` removed by `.replace("Z", "")`) in LTS.  As in the other
revisions, the datastore lookups are external and the repository ships no
`api/_hmrc_templates/giftAidClaimTemplate.xml`, so `loadTemplateOrFallback`
always returns the built-in fallback template reproduced below.
-/

open GiftAidPortal

/-- The mode enum returned by `getXmlMode` (lines 19–24). -/
inductive XmlMode where
  | ETS
  | LIVE
  | LTS
deriving DecidableEq, Repr

/-- `getXmlMode` (lines 19–24):
`String(process.env.HMRC_XML_MODE || "ETS").trim().toUpperCase()`; an
unset or empty variable is falsy and defaults to `"ETS"`; `"LIVE"` and
`"LTS"` select those modes, anything else is ETS. -/
def getXmlMode (envMode : Option String) : XmlMode :=
  let raw := envMode.getD ""
  let v := jsToUpper (jsTrim (if raw = "" then "ETS" else raw))
  if v = "LIVE" then XmlMode.LIVE
  else if v = "LTS" then XmlMode.LTS
  else XmlMode.ETS

/-- `getSenderCreds` (lines 230–250): env overrides win when BOTH are
set; otherwise ETS uses the fixed test credentials from the technical
pack, and LIVE/LTS fall back per-field to the old sample values. -/
def getSenderCreds (mode : XmlMode) (envSenderId envAuthValue : Option String) :
    String × String :=
  let senderFromEnv := jsTrim (envSenderId.getD "")
  let passFromEnv := jsTrim (envAuthValue.getD "")
  if ¬(senderFromEnv = "") ∧ ¬(passFromEnv = "") then (senderFromEnv, passFromEnv)
  else if mode = XmlMode.ETS then ("323412300001", "testing1")
  else ((if senderFromEnv = "" then "GIFTAIDCHAR" else senderFromEnv),
        (if passFromEnv = "" then "testing2" else passFromEnv))

/-- `chooseCharIdForMode` (lines 259–267): in ETS mode an env-forced test
CHARID wins, then the charity's stored value, then the pack's sample
`"AB12345"`; other modes use the stored value unchanged. -/
def chooseCharIdForMode (mode : XmlMode) (envTestCharid : Option String)
    (charityNumberOrLegacy : String) : String :=
  if mode = XmlMode.ETS then
    let forced := jsTrim (envTestCharid.getD "")
    if ¬(forced = "") then forced
    else if charityNumberOrLegacy = "" then "AB12345" else charityNumberOrLegacy
  else charityNumberOrLegacy

structure ClaimRow where
  id : String
  charity_id : String
  period_start : Option String
  period_end : Option String
deriving DecidableEq, Repr

structure CharityRow where
  id : String
  name : String
  contact_email : Option String
  charity_number : Option String
  charity_id : Option String
deriving DecidableEq, Repr

/-- A `claim_items` row as this revision selects it (step 3): `id` plus
the six donor/donation fields (no `donor_title`). -/
structure ClaimItemRow where
  id : String
  donor_first_name : String
  donor_last_name : String
  donor_address : String
  donor_postcode : String
  donation_date : String
  donation_amount : ℚ
deriving DecidableEq, Repr

/-- The ambient environment configuration this revision reads
(`process.env.HMRC_*`); each lookup may be unset. -/
structure EnvConfig where
  xmlMode : Option String
  senderId : Option String
  authValue : Option String
  gatewayTest : Option String
  testCharid : Option String
  vendorId : Option String
  productName : Option String
  productVersion : Option String
  irmark : Option String
  officialFore : Option String
  officialSur : Option String
  officialPostcode : Option String
  officialPhone : Option String
  regName : Option String
  regNo : Option String
deriving DecidableEq, Repr

/-- The `rawCharid` expression of step 2 (lines 302–304):
`charity_number` trimmed, falling back to the legacy `charity_id`
trimmed when blank. -/
def rawCharId (charityRow : CharityRow) : String :=
  let fromNumber := jsTrim (charityRow.charity_number.getD "")
  if fromNumber = "" then jsTrim (charityRow.charity_id.getD "") else fromNumber

/-- Validation step 4 (lines 327–340), for one item.  This revision's
postcode check goes through `normalizePostcode` (trim + upper-case), and
the error texts carry the human field names. -/
def validateItem (jsDate : String → Option (Nat × Nat × Nat)) (it : ClaimItemRow) :
    Except String Unit :=
  if jsTrim it.donor_first_name = "" then
    .error ("Item " ++ it.id ++ ": First Name is required")
  else if jsTrim it.donor_last_name = "" then
    .error ("Item " ++ it.id ++ ": Last Name is required")
  else if jsTrim it.donor_address = "" then
    .error ("Item " ++ it.id ++ ": Address is required")
  else if XmlV2.normalizePostcode it.donor_postcode = "" then
    .error ("Item " ++ it.id ++ ": Postcode is required")
  else if normalizeDate jsDate it.donation_date = "" then
    .error ("Item " ++ it.id ++ ": Donation Date is required (YYYY-MM-DD)")
  else if it.donation_amount ≤ 0 then
    .error ("Item " ++ it.id ++ ": Donation Amount must be > 0")
  else .ok ()

/-- Validation step 4 over the item list (first failure wins). -/
def validateItems (jsDate : String → Option (Nat × Nat × Nat)) :
    List ClaimItemRow → Except String Unit
  | [] => .ok ()
  | it :: rest =>
    match validateItem jsDate it with
    | .error e => .error e
    | .ok _ => validateItems jsDate rest

/-- The object literal passed to `buildGadRowXml` in step 5 (lines
345–352); this revision's `buildGadRowXml` (lines 191–216) is identical
to the v2 one (`XmlV2.buildGadRowXml`): normalized postcode, trimmed
names and address. -/
def toGadItem (it : ClaimItemRow) : XmlV2.GadItem :=
  { donor_first_name := it.donor_first_name
    donor_last_name := it.donor_last_name
    donor_address := it.donor_address
    donor_postcode := it.donor_postcode
    donation_date := it.donation_date
    donation_amount := it.donation_amount }

/-- `earliestDonationDate` (lines 218–224), same text as the v4 one, over
this revision's rows: normalize, keep the `YYYY-MM-DD`-shaped dates, sort
lexicographically, take the first, falling back when none remains. -/
def earliestDonationDate (jsDate : String → Option (Nat × Nat × Nat))
    (items : List ClaimItemRow) (fallback : String) : String :=
  let dates :=
    ((items.map (fun it => normalizeDate jsDate it.donation_date)).filter
      (fun d => isIsoDateShape d)).mergeSort (fun a b => decide (a ≤ b))
  dates.headD fallback

/-- The `vars` record (lines 374–423), in source order.  `CORRELATION_ID`
and `GATEWAY_TIMESTAMP` are the escaped header fields computed in step 6
and passed in here; `GATEWAY_TEST` defaults to `"0"` only in LIVE mode. -/
def giftAidVars (mode : XmlMode) (env : EnvConfig)
    (correlationId gatewayTimestamp senderId authValue charid periodEnd
      donationRowsXml earliestGA : String)
    (charityRow : CharityRow) : List (String × String) :=
  [ ("CORRELATION_ID", xmlEscape correlationId),
    ("GATEWAY_TEST", xmlEscape (env.gatewayTest.getD (if mode = XmlMode.LIVE then "0" else "1"))),
    ("GATEWAY_TIMESTAMP", xmlEscape gatewayTimestamp),
    ("SENDER_ID", xmlEscape senderId),
    ("AUTH_VALUE", xmlEscape authValue),
    ("CHARID", xmlEscape charid),
    ("VENDOR_ID", xmlEscape (env.vendorId.getD "0000")),
    ("PRODUCT_NAME", xmlEscape (env.productName.getD "GA Valid Sample")),
    ("PRODUCT_VERSION", xmlEscape (env.productVersion.getD "1.0")),
    ("PERIOD_END", xmlEscape periodEnd),
    ("IRMARK", xmlEscape (env.irmark.getD "nMs6zamBGcmT7n0selJHXuiQUEw=")),
    ("OFFICIAL_FORE", xmlEscape (env.officialFore.getD "John")),
    ("OFFICIAL_SUR", xmlEscape (env.officialSur.getD "Smith")),
    ("OFFICIAL_POSTCODE", xmlEscape (env.officialPostcode.getD "AB12 3CD")),
    ("OFFICIAL_PHONE", xmlEscape (env.officialPhone.getD "01234 567890")),
    ("ORG_NAME", xmlEscape (if charityRow.name = "" then "My Organisation" else charityRow.name)),
    ("HMRCREF", xmlEscape charid),
    ("REG_NAME", xmlEscape (env.regName.getD "CCEW")),
    ("REG_NO", xmlEscape (env.regNo.getD "A1234")),
    ("DONATION_ROWS", donationRowsXml),
    ("EARLIEST_GA_DATE", xmlEscape earliestGA),
    ("OTHER_INC_BLOCK", "") ]

/-- The built-in fallback template of this revision (lines 87–182),
reproduced line by line (joining these lines with a newline yields the
source's template literal verbatim). -/
def fallbackTemplateLines : List String :=
  [ "<?xml version=\"1.0\" encoding=\"UTF-8\"?>",
    "<GovTalkMessage xmlns=\"http://www.govtalk.gov.uk/CM/envelope\">",
    "  <EnvelopeVersion>2.0</EnvelopeVersion>",
    "",
    "  <Header>",
    "    <MessageDetails>",
    "      <Class>HMRC-CHAR-CLM</Class>",
    "      <Qualifier>request</Qualifier>",
    "      <Function>submit</Function>",
    "      <CorrelationID>\x7b\x7bCORRELATION_ID\x7d\x7d</CorrelationID>",
    "      <Transformation>XML</Transformation>",
    "      <GatewayTest>\x7b\x7bGATEWAY_TEST\x7d\x7d</GatewayTest>",
    "      <GatewayTimestamp>\x7b\x7bGATEWAY_TIMESTAMP\x7d\x7d</GatewayTimestamp>",
    "    </MessageDetails>",
    "",
    "    <SenderDetails>",
    "      <IDAuthentication>",
    "        <SenderID>\x7b\x7bSENDER_ID\x7d\x7d</SenderID>",
    "        <Authentication>",
    "          <Method>clear</Method>",
    "          <Role>principal</Role>",
    "          <Value>\x7b\x7bAUTH_VALUE\x7d\x7d</Value>",
    "        </Authentication>",
    "      </IDAuthentication>",
    "    </SenderDetails>",
    "  </Header>",
    "",
    "  <GovTalkDetails>",
    "    <Keys>",
    "      <Key Type=\"CHARID\">\x7b\x7bCHARID\x7d\x7d</Key>",
    "    </Keys>",
    "",
    "    <TargetDetails>",
    "      <Organisation>HMRC</Organisation>",
    "    </TargetDetails>",
    "",
    "    <ChannelRouting>",
    "      <Channel>",
    "        <URI>\x7b\x7bVENDOR_ID\x7d\x7d</URI>",
    "        <Product>\x7b\x7bPRODUCT_NAME\x7d\x7d</Product>",
    "        <Version>\x7b\x7bPRODUCT_VERSION\x7d\x7d</Version>",
    "      </Channel>",
    "    </ChannelRouting>",
    "  </GovTalkDetails>",
    "",
    "  <Body>",
    "    <IRenvelope xmlns=\"http://www.govtalk.gov.uk/taxation/charities/r68/2\">",
    "      <IRheader>",
    "        <Keys>",
    "          <Key Type=\"CHARID\">\x7b\x7bCHARID\x7d\x7d</Key>",
    "        </Keys>",
    "        <PeriodEnd>\x7b\x7bPERIOD_END\x7d\x7d</PeriodEnd>",
    "        <DefaultCurrency>GBP</DefaultCurrency>",
    "        <IRmark Type=\"generic\">\x7b\x7bIRMARK\x7d\x7d</IRmark>",
    "        <Sender>Individual</Sender>",
    "      </IRheader>",
    "",
    "      <R68>",
    "        <AuthOfficial>",
    "          <OffName>",
    "            <Fore>\x7b\x7bOFFICIAL_FORE\x7d\x7d</Fore>",
    "            <Sur>\x7b\x7bOFFICIAL_SUR\x7d\x7d</Sur>",
    "          </OffName>",
    "          <OffID>",
    "            <Postcode>\x7b\x7bOFFICIAL_POSTCODE\x7d\x7d</Postcode>",
    "          </OffID>",
    "          <Phone>\x7b\x7bOFFICIAL_PHONE\x7d\x7d</Phone>",
    "        </AuthOfficial>",
    "",
    "        <Declaration>yes</Declaration>",
    "",
    "        <Claim>",
    "          <OrgName>\x7b\x7bORG_NAME\x7d\x7d</OrgName>",
    "          <HMRCref>\x7b\x7bHMRCREF\x7d\x7d</HMRCref>",
    "",
    "          <Regulator>",
    "            <RegName>\x7b\x7bREG_NAME\x7d\x7d</RegName>",
    "            <RegNo>\x7b\x7bREG_NO\x7d\x7d</RegNo>",
    "          </Regulator>",
    "",
    "          <Repayment>",
    "\x7b\x7bDONATION_ROWS\x7d\x7d",
    "            <EarliestGAdate>\x7b\x7bEARLIEST_GA_DATE\x7d\x7d</EarliestGAdate>",
    "            \x7b\x7bOTHER_INC_BLOCK\x7d\x7d",
    "          </Repayment>",
    "",
    "          <GASDS>",
    "            <ConnectedCharities>no</ConnectedCharities>",
    "            <CommBldgs>no</CommBldgs>",
    "          </GASDS>",
    "        </Claim>",
    "      </R68>",
    "    </IRenvelope>",
    "  </Body>",
    "</GovTalkMessage>",
    "" ]

/-- The fallback template as the single string literal the source holds. -/
def fallbackTemplate : String := String.intercalate "\n" fallbackTemplateLines

/-- The mode-aware `generateHmrcGiftAidXml` (lines 274–435), as a
function of the datastore lookup results and ambient configuration.
Steps in source order: claim id check, mode selection, claim lookup,
`period_end` normalization, `period_start` normalization (falling back to
the period end), charity lookup, CHARID selection and check, item lookup
(empty list rejected), per-item validation, donation rows, earliest date
(fallback: the period START here), the per-mode header fields
(`correlationId` always blank; `gatewayTimestamp` populated — the ISO
timestamp with the trailing `"Z"` replaced away — only in LTS), sender
credentials, template variables, placeholder substitution,
leftover-placeholder safety check. -/
def generateHmrcGiftAidXml (jsDate : String → Option (Nat × Nat × Nat))
    (env : EnvConfig) (nowIso : String) (claimId : String)
    (claim : Option ClaimRow) (charity : Option CharityRow)
    (items : List ClaimItemRow) : Except String String :=
  let id := jsTrim claimId
  if id = "" then .error "claimId is required"
  else
    let mode := getXmlMode env.xmlMode
    match claim with
    | none => .error "Claim not found"
    | some claimRow =>
      let periodEnd := normalizeDate jsDate (claimRow.period_end.getD "")
      if periodEnd = "" then
        .error "Claim period_end is missing/invalid (expected YYYY-MM-DD)"
      else
        let periodStart :=
          let ps := normalizeDate jsDate (claimRow.period_start.getD "")
          if ps = "" then periodEnd else ps
        match charity with
        | none => .error "Charity not found"
        | some charityRow =>
          let charid := chooseCharIdForMode mode env.testCharid (rawCharId charityRow)
          if charid = "" then
            .error "Missing Charity Number (used as HMRC CHARID). Ask an operator to set it in Admin."
          else if items = [] then
            .error "No donation items found for this claim"
          else
            match validateItems jsDate items with
            | .error e => .error e
            | .ok _ =>
              let donationRowsXml :=
                String.intercalate "\n"
                  (items.map (fun it => XmlV2.buildGadRowXml jsDate (toGadItem it)))
              let earliestGA := earliestDonationDate jsDate items periodStart
              let correlationId := ""
              let gatewayTimestamp :=
                if mode = XmlMode.LTS then jsReplaceOnce nowIso "Z" "" else ""
              let creds := getSenderCreds mode env.senderId env.authValue
              let vars := giftAidVars mode env correlationId gatewayTimestamp creds.1 creds.2
                charid periodEnd donationRowsXml earliestGA charityRow
              let xml := replaceAllPlaceholders fallbackTemplate vars
              if strContains xml "\x7b\x7b" then
                .error "XML template still has unreplaced placeholders."
              else .ok xml

end GiftAidPortal.XmlModes

namespace GiftAidPortal.Store

/-!
The claims/claim-items datastore, as seen by the admin claim endpoints.
`claims` rows carry the fields these handlers read or write; `claim_items`
rows carry the legacy `donor_name`-shaped fields used by
`api/admin/claims/update-item.ts`, `delete-item.ts` and `item.ts`.
-/

structure ClaimRec where
  id : String
  charity_id : String
  status : String
  donation_count : Option Nat
  total_amount : Option ℚ
deriving DecidableEq, Repr

structure ItemRec where
  id : String
  claim_id : String
  donor_name : String
  donor_postcode : String
  donation_date : String
  donation_amount : ℚ
  gift_aid_declaration_date : Option String
deriving DecidableEq, Repr

structure Db where
  claims : List ClaimRec
  claim_items : List ItemRec
deriving DecidableEq, Repr

/-- Status of the claim with the given id, if any. -/
def claimStatus (db : Db) (claimId : String) : Option String :=
  (db.claims.find? (fun c => c.id = claimId)).map (fun c => c.status)

/-- Modelled from the spec: the database trigger on `claim_items`.  The
trigger itself is database DDL and is not under the repository's source
tree; `update-item.ts` and `delete-item.ts` reference it in comments
("Your DB trigger will block updates unless the claim is still in
'draft'", "DB trigger will block deletes unless claim is 'draft'").  Per
the spec's mutation guard, any insert/update/delete of a `claim_items`
row is rejected unless the owning claim's status is `draft`. -/
def triggerAllowsMutation (db : Db) (claimId : String) : Bool :=
  claimStatus db claimId = some "draft"

/-- The field updates `update-item.ts` writes (`declarationDate || null`
normalizes the empty string to null). -/
def applyItemUpdate (donorName donorPostcode donationDate : String) (amt : ℚ)
    (declarationDate : Option String) (it : ItemRec) : ItemRec :=
  { it with
    donor_name := jsTrim donorName
    donor_postcode := jsTrim donorPostcode
    donation_date := donationDate
    donation_amount := amt
    gift_aid_declaration_date :=
      match declarationDate with
      | some d => if d = "" then none else some d
      | none => none }

/-- The handler of `api/admin/claims/update-item.ts` (response status and
datastore after effects).  Validations in source order; the update itself
runs against the trigger: when the owning claim is not in `draft` the
trigger raises, supabase reports the error, the handler answers 500 and
no row changes.  An update matching no row leaves the store unchanged and
fails the `.single()` selection (500). -/
def updateItemHandler (db : Db) (itemId donorName donorPostcode donationDate : String)
    (donationAmount : ℚ) (declarationDate : Option String) : Nat × Db :=
  if itemId = "" then (400, db)
  else if donorName = "" ∨ donorPostcode = "" ∨ donationDate = "" then (400, db)
  else if donationAmount ≤ 0 then (400, db)
  else
    match db.claim_items.find? (fun it => it.id = itemId) with
    | none => (500, db)
    | some it =>
      if triggerAllowsMutation db it.claim_id then
        (200,
          { db with
            claim_items := db.claim_items.map (fun j =>
              if j.id = itemId then
                applyItemUpdate donorName donorPostcode donationDate donationAmount declarationDate j
              else j) })
      else (500, db)

/-- The handler of `api/admin/claims/delete-item.ts`.  A delete matching
no row succeeds vacuously (no `.single()` on the delete); when a row
matches, the trigger rejects the delete unless the owning claim is in
`draft`. -/
def deleteItemHandler (db : Db) (itemId : String) : Nat × Db :=
  if itemId = "" then (400, db)
  else
    match db.claim_items.find? (fun it => it.id = itemId) with
    | none => (200, db)
    | some it =>
      if triggerAllowsMutation db it.claim_id then
        (200, { db with claim_items := db.claim_items.filter (fun j => ¬(j.id = itemId)) })
      else (500, db)

/-- The handler of `api/admin/claims/add-item.ts` (the revision that
checks the claim status itself: "Can only add items to a draft claim").
`newItem` is the row the insert would create (its `claim_id` is the
requested claim).  Field validations in source order; a missing claim
surfaces as the `.single()` lookup error (500). -/
def addItemHandler (db : Db) (claimId firstName lastName address postcode donationDate : String)
    (donationAmount : ℚ) (newItem : ItemRec) : Nat × Db :=
  if claimId = "" then (400, db)
  else if jsTrim firstName = "" then (400, db)
  else if jsTrim lastName = "" then (400, db)
  else if jsTrim address = "" then (400, db)
  else if jsTrim postcode = "" then (400, db)
  else if ¬(isIsoDateShape donationDate) then (400, db)
  else if donationAmount ≤ 0 then (400, db)
  else
    match db.claims.find? (fun c => c.id = claimId) with
    | none => (500, db)
    | some claim =>
      if ¬(claim.status = "draft") then (400, db)
      else (200, { db with claim_items := db.claim_items ++ [newItem] })

/-- The handler of `api/admin/claims/item.ts` that marks a claim ready:
recompute `donation_count` and `total_amount` from the claim's items,
reject an empty claim, then set `status`, `donation_count`,
`total_amount` on the claim row.  The handler performs no check of the
claim's current status. -/
def markReadyHandler (db : Db) (claimId : String) : Nat × Db :=
  if claimId = "" then (400, db)
  else
    let items := db.claim_items.filter (fun it => it.claim_id = claimId)
    let donation_count := items.length
    let total_amount := (items.map (fun it => it.donation_amount)).sum
    if donation_count = 0 then (400, db)
    else
      (200,
        { db with
          claims := db.claims.map (fun c =>
            if c.id = claimId then
              { c with status := "ready", donation_count := some donation_count,
                       total_amount := some total_amount }
            else c) })

/-- The datastore the mark-ready handler is expected to produce on
success: the claim row updated to status `ready` with `donation_count`
the number of its records and `total_amount` the sum of their amounts
(the shape the specification asserts; the theorems below prove the
handler produces exactly this). -/
def markReadyResult (db : Db) (claimId : String) : Db :=
  { db with claims := db.claims.map (fun c =>
      if c.id = claimId then
        { c with
            status := "ready"
            donation_count :=
              some (db.claim_items.filter (fun it => it.claim_id = claimId)).length
            total_amount :=
              some (((db.claim_items.filter (fun it => it.claim_id = claimId)).map
                (fun it => it.donation_amount)).sum) }
      else c) }

end GiftAidPortal.Store

namespace GiftAidPortal.Submit

/-!
The submit handler bundled with the admin claim endpoints (the revision
importing `buildGiftAidClaimXml` and `hmrcTestSubmit`): load the claim,
require status `ready`, load the charity, require a charity number (the
HMRC CHARID), load the items, build the envelope, post it to the test
transaction engine, then store the outcome on the claim with status
`submitted`.  The envelope-building step feeds only the transport, whose
outcome is an input here, so the built document is not modelled
separately.  The handler's `try/catch` converts any thrown error — in
particular the transport timeout/network rejection that `httpPostXml`
propagates — into a 403 response, and in that case no claim update is
issued.
-/

open GiftAidPortal

structure ClaimRow where
  id : String
  charity_id : String
  period_start : Option String
  period_end : Option String
  status : String
deriving DecidableEq, Repr

structure CharityRow where
  id : String
  name : String
  contact_email : Option String
  charity_number : Option String
deriving DecidableEq, Repr

structure ItemRow where
  donor_title : Option String
  donor_first_name : String
  donor_last_name : String
  donor_address : String
  donor_postcode : String
  donation_date : String
  donation_amount : ℚ
deriving DecidableEq, Repr

/-- The `claims` table update the handler issues on success. -/
structure ClaimUpdate where
  status : String
  donation_count : Nat
  total_amount : ℚ
  hmrc_correlation_id : String
  hmrc_last_message : String
  hmrc_raw_response : String
deriving DecidableEq, Repr

/-- The submit handler: response status code paired with the claim update
it issues (`none` when no update reaches the datastore). -/
def submitClaimHandler (claimIdRaw : String) (claim : Option ClaimRow)
    (charity : Option CharityRow) (items : List ItemRow)
    (fetchResult : FetchOutcome) : Nat × Option ClaimUpdate :=
  let claimId := jsTrim claimIdRaw
  if claimId = "" then (400, none)
  else
    match claim with
    | none => (404, none)
    | some claimRow =>
      if ¬(claimRow.status = "ready") then (400, none)
      else
        match charity with
        | none => (500, none)
        | some charityRow =>
          let hmrcCharId := jsTrim (charityRow.charity_number.getD "")
          if hmrcCharId = "" then (400, none)
          else if items = [] then (400, none)
          else
            match httpPostXml fetchResult with
            | .error _ => (403, none)
            | .ok r =>
              let totalAmount := (items.map (fun it => it.donation_amount)).sum
              (200, some
                { status := "submitted"
                  donation_count := items.length
                  total_amount := totalAmount
                  hmrc_correlation_id := claimId
                  hmrc_last_message :=
                    if r.ok then
                      "HMRC TEST submit accepted (HTTP " ++ toString r.status ++ "). Next: poll."
                    else
                      "HMRC TEST submit failed (HTTP " ++ toString r.status ++ ")."
                  hmrc_raw_response := r.bodyText })

end GiftAidPortal.Submit

namespace GiftAidPortal.Conn

/-!
The gateway connection save handler (`api/hmrc/connection/save.ts`, the
admin variant is identical on this point): first mark every active
`hmrc_connections` row of the charity inactive, then insert exactly one
new active row.  The rows deactivated are updated in place — never
deleted — preserving the audit history.
-/

structure HmrcConnection where
  id : String
  charity_id : String
  mode : String
  active : Bool
  credentials_encrypted : String
deriving DecidableEq, Repr

/-- The first datastore operation of the handler: `update {active:false}
where charity_id = ? and active = true`. -/
def deactivateActive (rows : List HmrcConnection) (charityId : String) : List HmrcConnection :=
  rows.map (fun r =>
    if r.charity_id = charityId ∧ r.active then { r with active := false } else r)

/-- The second datastore operation: insert one new active `charity`-mode
connection.  `saveConnection` is the composition the handler performs
when the insert succeeds; when the insert fails the store is left in the
`deactivateActive` state (the handler answers 500 without undoing the
deactivation). -/
def saveConnection (rows : List HmrcConnection) (charityId newId encrypted : String) :
    List HmrcConnection :=
  deactivateActive rows charityId ++
    [{ id := newId, charity_id := charityId, mode := "charity", active := true,
       credentials_encrypted := encrypted }]

/-- Number of active connections a charity holds. -/
def activeCount (rows : List HmrcConnection) (charityId : String) : Nat :=
  (rows.filter (fun r => r.charity_id = charityId ∧ r.active)).length

end GiftAidPortal.Conn

namespace GiftAidPortal.Vault

/-!
The credential vault (`api/_utils/crypto.ts`).  The repository code
derives a 32-byte key from the configured secret (after a length check),
draws a random 12-byte initialization vector, encrypts the JSON
serialization of the credential object with AES-256-GCM, and stores the
payload as three base64 components joined with `.` in the order
`iv.tag.ciphertext`; decryption checks the component count, decodes,
authenticates and inverts.

External collaborators are parameters:

* `h32` — the SHA-256 digest of `crypto.createHash("sha256")`;
* `mask` — the AES-256-CTR keystream that GCM applies to the plaintext
  (`mask key iv i` is the keystream byte at offset `i`);
* `mac` — the authentication-tag function (GHASH over the ciphertext,
  encrypted under the key) whose output `getAuthTag()` returns and whose
  recomputation `decipher.final()` compares against the supplied tag,
  failing closed on mismatch;
* `ser`/`deser` — `JSON.stringify`/`JSON.parse` on the credential object.

Base64 itself is deterministic and is implemented (and verified) here.
-/

/-- A byte. -/
abbrev Byte := Fin 256

/-- XOR of two bytes. -/
def byteXor (a b : Byte) : Byte :=
  ⟨a.val ^^^ b.val,
    Nat.xor_lt_two_pow (show a.val < 2 ^ 8 from a.isLt) (show b.val < 2 ^ 8 from b.isLt)⟩

/-- The base64 alphabet. -/
def b64Alphabet : List Char :=
  "ABCDEFGHIJKLMNOPQRSTUVWXYZabcdefghijklmnopqrstuvwxyz0123456789+/".data

/-- Character of a sextet value. -/
def sextetChar (n : Nat) : Char :=
  b64Alphabet.getD n (Char.ofNat 63)

/-- Value of an alphabet character. -/
def sextetVal (c : Char) : Option Nat :=
  b64Alphabet.findIdx? (fun x => x = c)

/-- Standard base64 encoding of a byte list (with `=` padding), as
`Buffer.prototype.toString("base64")` produces. -/
def b64EncodeList : List Byte → List Char
  | [] => []
  | [b1] =>
    [sextetChar (b1.val / 4), sextetChar (b1.val % 4 * 16), '=', '=']
  | [b1, b2] =>
    [sextetChar (b1.val / 4), sextetChar (b1.val % 4 * 16 + b2.val / 16),
     sextetChar (b2.val % 16 * 4), '=']
  | b1 :: b2 :: b3 :: rest =>
    sextetChar (b1.val / 4) :: sextetChar (b1.val % 4 * 16 + b2.val / 16) ::
    sextetChar (b2.val % 16 * 4 + b3.val / 64) :: sextetChar (b3.val % 64) ::
    b64EncodeList rest

/-- `buf.toString("base64")`. -/
def b64Encode (bs : List Byte) : String := ⟨b64EncodeList bs⟩

/-- Truncate a natural number into a byte. -/
def mkByte (n : Nat) : Byte := ⟨n % 256, Nat.mod_lt n (by decide)⟩

/-- Base64 decoding (of well-formed input; `Buffer.from(s, "base64")` is
lenient on malformed input, a case no reachable payload exercises). -/
def b64DecodeList : List Char → Option (List Byte)
  | [] => some []
  | c1 :: c2 :: c3 :: c4 :: rest =>
    match sextetVal c1, sextetVal c2 with
    | some s1, some s2 =>
      if c3 = '=' then
        if c4 = '=' ∧ rest = [] then some [mkByte (s1 * 4 + s2 / 16)] else none
      else
        match sextetVal c3 with
        | some s3 =>
          if c4 = '=' then
            if rest = [] then
              some [mkByte (s1 * 4 + s2 / 16), mkByte (s2 % 16 * 16 + s3 / 4)]
            else none
          else
            match sextetVal c4 with
            | some s4 =>
              match b64DecodeList rest with
              | some tail =>
                some (mkByte (s1 * 4 + s2 / 16) :: mkByte (s2 % 16 * 16 + s3 / 4) ::
                      mkByte (s3 % 4 * 64 + s4) :: tail)
              | none => none
            | none => none
        | none => none
    | _, _ => none
  | _ => none

/-- `Buffer.from(s, "base64")`. -/
def b64Decode (s : String) : Option (List Byte) := b64DecodeList s.data

/-- `payload.split(".")` (single-character separator). -/
def splitOnDotAux : List Char → List Char → List String
  | [], acc => [⟨acc.reverse⟩]
  | c :: rest, acc =>
    if c = '.' then ⟨acc.reverse⟩ :: splitOnDotAux rest [] else splitOnDotAux rest (c :: acc)

/-- `payload.split(".")`. -/
def splitOnDot (s : String) : List String := splitOnDotAux s.data []

/-- `getKey` from `api/_utils/crypto.ts`: reject a missing or short
secret (`!KEY || KEY.length < 16`, and the empty string has length 0),
then derive the 32-byte AES key as the SHA-256 digest of the secret. -/
def getKey (h32 : String → List Byte) (secret : String) : Except String (List Byte) :=
  if secret.length < 16 then .error "HMRC_CRED_ENCRYPTION_KEY is missing or too short"
  else .ok (h32 secret)

/-- The counter-mode masking GCM applies: byte `i` of the input XORed
with keystream byte `i`. -/
def ctrXor (mask : List Byte → List Byte → Nat → Byte) (key iv : List Byte) :
    Nat → List Byte → List Byte
  | _, [] => []
  | i, b :: rest => byteXor b (mask key iv i) :: ctrXor mask key iv (i + 1) rest

/-- `encryptJson` from `api/_utils/crypto.ts`: derive the key, mask the
serialized object with the keystream, authenticate the ciphertext, and
join the three base64 components as `iv.tag.ciphertext`. -/
def encryptJson {α : Type} (mask : List Byte → List Byte → Nat → Byte)
    (mac : List Byte → List Byte → List Byte → List Byte)
    (h32 : String → List Byte) (ser : α → List Byte)
    (secret : String) (iv : List Byte) (obj : α) : Except String String :=
  match getKey h32 secret with
  | .error e => .error e
  | .ok key =>
    let plaintext := ser obj
    let encrypted := ctrXor mask key iv 0 plaintext
    let tag := mac key iv encrypted
    .ok (b64Encode iv ++ "." ++ b64Encode tag ++ "." ++ b64Encode encrypted)

/-- `decryptJson` from `api/_utils/crypto.ts`: derive the key, check the
three-component shape, decode the components, recompute the
authentication tag over the presented ciphertext and compare it with the
presented tag (`decipher.setAuthTag(tag)`; `decipher.final()` throws
"Unsupported state or unable to authenticate data" on mismatch, before
any plaintext is released), then unmask and deserialize. -/
def decryptJson {α : Type} (mask : List Byte → List Byte → Nat → Byte)
    (mac : List Byte → List Byte → List Byte → List Byte)
    (h32 : String → List Byte) (deser : List Byte → Except String α)
    (secret : String) (payload : String) : Except String α :=
  match getKey h32 secret with
  | .error e => .error e
  | .ok key =>
    match splitOnDot payload with
    | [p0, p1, p2] =>
      match b64Decode p0, b64Decode p1, b64Decode p2 with
      | some iv, some tag, some data =>
        if mac key iv data = tag then deser (ctrXor mask key iv 0 data)
        else .error "Unsupported state or unable to authenticate data"
      | _, _, _ => .error "invalid base64 component"
    | _ => .error "Invalid encrypted payload format"

end GiftAidPortal.Vault

namespace GiftAidPortal

/-! ## Theorems -/

/-- Claim C6 counterexample: `submit(xml)` does NOT return an outcome
value on the timeout and network-failure conditions — `httpPostXml` has
no `catch`, so both fetch rejections propagate as thrown errors; only the
non-2xx HTTP response yields a returned outcome.  There is consequently
no returned outcome carrying "HTTP status 0". -/
theorem httpPostXml_throws_on_timeout_and_network_failure_cx :
    httpPostXml FetchOutcome.abortError = Except.error "AbortError"
    ∧ httpPostXml (FetchOutcome.networkError "fetch failed") = Except.error "fetch failed"
    ∧ httpPostXml (FetchOutcome.response false 500 "<ServerError/>" (some "text/xml"))
        = Except.ok { ok := false, status := 500, bodyText := "<ServerError/>",
                      contentType := some "text/xml" } :=
  ⟨rfl, rfl, rfl⟩

/-- Claim C6 (amended): `httpPostXml` posts the XML body with
content-type `text/xml; charset=utf-8` under a default hard timeout of
25000 ms; whenever an HTTP response arrives — including every non-2xx
response — it RETURNS an outcome carrying the success flag, the HTTP
status, the raw body and the content-type; on timeout (abort) and on
network failure the promise instead rejects, propagating the error to the
caller rather than returning an outcome value. -/
theorem httpPostXml_outcomes :
    (∀ (ok : Bool) (status : Nat) (body : String) (ct : Option String),
      httpPostXml (FetchOutcome.response ok status body ct)
        = Except.ok { ok := ok, status := status, bodyText := body, contentType := ct })
    ∧ httpPostXml FetchOutcome.abortError = Except.error "AbortError"
    ∧ (∀ m, httpPostXml (FetchOutcome.networkError m) = Except.error m)
    ∧ (∀ url xml, (httpPostXmlRequest url xml).method = "POST"
        ∧ (httpPostXmlRequest url xml).contentTypeHeader = "text/xml; charset=utf-8"
        ∧ (httpPostXmlRequest url xml).body = xml
        ∧ (httpPostXmlRequest url xml).timeoutMs = 25000) :=
  ⟨fun _ _ _ _ => rfl, rfl, fun _ => rfl, fun _ _ => ⟨rfl, rfl, rfl, rfl⟩⟩

/-- Claim C1 counterexample: a claim in status `ready`, with a charity
number and a nonempty item list, submitted while the transport times out
(the fetch promise rejects with `AbortError`): the handler's `catch`
answers 403 and issues NO claim update — the claim is not advanced to
`submitted` and no transport message is stored, contradicting the claimed
behaviour for the timeout and network-failure outcomes. -/
theorem submit_timeout_leaves_claim_ready_cx :
    Submit.submitClaimHandler "claim-1"
      (some { id := "claim-1", charity_id := "ch-1", period_start := some "2024-04-01",
              period_end := some "2024-06-30", status := "ready" })
      (some { id := "ch-1", name := "Charity One", contact_email := none,
              charity_number := some "AB12345" })
      [{ donor_title := none, donor_first_name := "Ada", donor_last_name := "Lovelace",
         donor_address := "1 Test Way", donor_postcode := "AB1 2CD",
         donation_date := "2024-05-01", donation_amount := 10 }]
      FetchOutcome.abortError
      = (403, none) := by
  rfl

/-- Claim C1 (amended): for a `ready` claim that passes the credential
and identifier preconditions, the submit handler advances the claim to
`submitted` and stores the transport message and raw response whenever
the transport yields an HTTP response — including every non-2xx response
— and the transition is not rolled back on such a failure; but when the
transport throws (timeout abort or network failure) the handler answers
403 and issues no update at all, leaving the claim in `ready`. -/
theorem submit_records_every_http_response (claimIdRaw : String)
    (claimRow : Submit.ClaimRow) (charityRow : Submit.CharityRow)
    (items : List Submit.ItemRow)
    (hid : ¬(jsTrim claimIdRaw = "")) (hready : claimRow.status = "ready")
    (hchar : ¬(jsTrim (charityRow.charity_number.getD "") = ""))
    (hitems : ¬(items = [])) :
    (∀ (ok : Bool) (status : Nat) (body : String) (ct : Option String),
      Submit.submitClaimHandler claimIdRaw (some claimRow) (some charityRow) items
        (FetchOutcome.response ok status body ct)
        = (200, some
            { status := "submitted"
              donation_count := items.length
              total_amount := (items.map (fun it => it.donation_amount)).sum
              hmrc_correlation_id := jsTrim claimIdRaw
              hmrc_last_message :=
                if ok then
                  "HMRC TEST submit accepted (HTTP " ++ toString status ++ "). Next: poll."
                else
                  "HMRC TEST submit failed (HTTP " ++ toString status ++ ")."
              hmrc_raw_response := body }))
    ∧ Submit.submitClaimHandler claimIdRaw (some claimRow) (some charityRow) items
        FetchOutcome.abortError = (403, none)
    ∧ (∀ m, Submit.submitClaimHandler claimIdRaw (some claimRow) (some charityRow) items
        (FetchOutcome.networkError m) = (403, none)) := by
  refine ⟨fun ok status body ct => ?_, ?_, fun m => ?_⟩ <;>
    simp [Submit.submitClaimHandler, httpPostXml, hid, hready, hchar, hitems]

/-- Witness for `submit_records_every_http_response`: a concrete ready
claim whose transport replies with HTTP 500 is advanced to `submitted`
with the failure message stored. -/
theorem submit_records_every_http_response_witness :
    Submit.submitClaimHandler "claim-1"
      (some { id := "claim-1", charity_id := "ch-1", period_start := some "2024-04-01",
              period_end := some "2024-06-30", status := "ready" })
      (some { id := "ch-1", name := "Charity One", contact_email := none,
              charity_number := some "AB12345" })
      [{ donor_title := none, donor_first_name := "Ada", donor_last_name := "Lovelace",
         donor_address := "1 Test Way", donor_postcode := "AB1 2CD",
         donation_date := "2024-05-01", donation_amount := 10 }]
      (FetchOutcome.response false 500 "<ServerError/>" (some "text/xml"))
      = (200, some
          { status := "submitted", donation_count := 1, total_amount := 10,
            hmrc_correlation_id := "claim-1",
            hmrc_last_message := "HMRC TEST submit failed (HTTP 500).",
            hmrc_raw_response := "<ServerError/>" }) := by
  have h := (submit_records_every_http_response "claim-1"
    { id := "claim-1", charity_id := "ch-1", period_start := some "2024-04-01",
      period_end := some "2024-06-30", status := "ready" }
    { id := "ch-1", name := "Charity One", contact_email := none,
      charity_number := some "AB12345" }
    [{ donor_title := none, donor_first_name := "Ada", donor_last_name := "Lovelace",
       donor_address := "1 Test Way", donor_postcode := "AB1 2CD",
       donation_date := "2024-05-01", donation_amount := 10 }]
    (by decide) (by rfl) (by decide) (by decide)).1 false 500 "<ServerError/>" (some "text/xml")
  simpa using h

/-- Claim C10: with a configured secret of accepted length, every payload
that does not split on `.` into exactly three components is rejected with
"Invalid encrypted payload format", whatever the cryptographic
collaborators do — the result is independent of the digest, keystream,
tag and deserialization functions, so no decryption is attempted on a
malformed payload. -/
theorem decryptJson_malformed_payload_rejected {α : Type}
    (mask : List Vault.Byte → List Vault.Byte → Nat → Vault.Byte)
    (mac : List Vault.Byte → List Vault.Byte → List Vault.Byte → List Vault.Byte)
    (h32 : String → List Vault.Byte) (deser : List Vault.Byte → Except String α)
    (secret payload : String)
    (hsec : 16 ≤ secret.length)
    (hmal : ¬((Vault.splitOnDot payload).length = 3)) :
    Vault.decryptJson mask mac h32 deser secret payload
      = Except.error "Invalid encrypted payload format" := by
  unfold Vault.decryptJson Vault.getKey
  rw [if_neg (by omega)]
  rcases h : Vault.splitOnDot payload with _ | ⟨a, _ | ⟨b, _ | ⟨c, _ | ⟨d, t⟩⟩⟩⟩ <;>
    simp_all

/-- Witness for `decryptJson_malformed_payload_rejected`: the one-part
payload `"abc"` is rejected with the format error. -/
theorem decryptJson_malformed_payload_rejected_witness :
    16 ≤ ("0123456789abcdef" : String).length
    ∧ Vault.decryptJson (fun _ _ _ => (0 : Vault.Byte)) (fun _ _ c => c) (fun _ => [])
        (fun _ => Except.ok ()) "0123456789abcdef" "abc"
        = Except.error "Invalid encrypted payload format" :=
  ⟨by decide,
   decryptJson_malformed_payload_rejected (fun _ _ _ => (0 : Vault.Byte)) (fun _ _ c => c)
     (fun _ => []) (fun _ => Except.ok ()) "0123456789abcdef" "abc" (by decide) (by decide)⟩

end GiftAidPortal

namespace GiftAidPortal

/-- Deactivation rewrites rows in place and keeps every row id. -/
theorem deactivateActive_map_id (rows : List Conn.HmrcConnection) (charityId : String) :
    (Conn.deactivateActive rows charityId).map (fun r => r.id) = rows.map (fun r => r.id) := by
  induction rows with
  | nil => rfl
  | cons r rs ih =>
    by_cases h : r.charity_id = charityId ∧ r.active <;>
      simp [Conn.deactivateActive, h] at ih ⊢ <;> exact ih

/-- After deactivation no active row of the charity remains. -/
theorem deactivateActive_count_zero (rows : List Conn.HmrcConnection) (charityId : String) :
    Conn.activeCount (Conn.deactivateActive rows charityId) charityId = 0 := by
  induction rows with
  | nil => rfl
  | cons r rs ih =>
    by_cases h : r.charity_id = charityId ∧ r.active <;>
      by_cases h1 : r.charity_id = charityId <;>
        simp_all [Conn.deactivateActive, Conn.activeCount, List.filter]

/-- Deactivation of one charity leaves every other charity's active rows
untouched. -/
theorem deactivateActive_count_other (rows : List Conn.HmrcConnection) (charityId other : String)
    (hne : ¬(other = charityId)) :
    Conn.activeCount (Conn.deactivateActive rows charityId) other
      = Conn.activeCount rows other := by
  induction rows with
  | nil => rfl
  | cons r rs ih =>
    by_cases h : r.charity_id = charityId ∧ r.active <;>
      by_cases h1 : r.charity_id = other <;>
        cases ha : r.active <;>
          simp_all [Conn.deactivateActive, Conn.activeCount, List.filter]

/-- Claim C9: saving new gateway credentials deactivates every active
connection of the charity in place (soft deactivation: every row id is
preserved, none deleted) and then inserts exactly one new active
connection.  Afterwards the charity has exactly one active connection,
no other charity's connections changed, and the at-most-one-active
invariant is preserved for every charity — it also holds in the
intermediate state reached when the insert fails after the deactivation
(the deactivation is not rolled back, leaving zero active rows). -/
theorem connection_save_single_active (rows : List Conn.HmrcConnection)
    (charityId newId encrypted : String) :
    Conn.activeCount (Conn.saveConnection rows charityId newId encrypted) charityId = 1
    ∧ (∀ other, ¬(other = charityId) →
        Conn.activeCount (Conn.saveConnection rows charityId newId encrypted) other
          = Conn.activeCount rows other)
    ∧ (Conn.saveConnection rows charityId newId encrypted).map (fun r => r.id)
        = rows.map (fun r => r.id) ++ [newId]
    ∧ Conn.activeCount (Conn.deactivateActive rows charityId) charityId = 0
    ∧ ((∀ c, Conn.activeCount rows c ≤ 1) →
        ∀ c, Conn.activeCount (Conn.saveConnection rows charityId newId encrypted) c ≤ 1) := by
  have hcnt : Conn.activeCount (Conn.saveConnection rows charityId newId encrypted) charityId = 1 := by
    have h0 := deactivateActive_count_zero rows charityId
    unfold Conn.activeCount at h0 ⊢
    rw [Conn.saveConnection, List.filter_append, List.length_append, h0]
    simp [List.filter]
  have hother : ∀ other, ¬(other = charityId) →
      Conn.activeCount (Conn.saveConnection rows charityId newId encrypted) other
        = Conn.activeCount rows other := by
    intro other hne
    have h0 := deactivateActive_count_other rows charityId other hne
    unfold Conn.activeCount at h0 ⊢
    rw [Conn.saveConnection, List.filter_append, List.length_append, h0]
    have : ¬(charityId = other) := fun h => hne h.symm
    simp [List.filter, this]
  refine ⟨hcnt, hother, ?_, deactivateActive_count_zero rows charityId, ?_⟩
  · simp [Conn.saveConnection, deactivateActive_map_id rows charityId]
  · intro hinv c
    by_cases hc : c = charityId
    · subst hc; omega
    · rw [hother c hc]; exact hinv c

/-- Witness for `connection_save_single_active`: a store already holding
one active and one inactive connection for the charity ends with exactly
one active connection (the new one) and three preserved rows. -/
theorem connection_save_single_active_witness :
    Conn.activeCount
      (Conn.saveConnection
        [{ id := "conn-1", charity_id := "ch-1", mode := "charity", active := true,
           credentials_encrypted := "aaa" },
         { id := "conn-2", charity_id := "ch-1", mode := "charity", active := false,
           credentials_encrypted := "bbb" }]
        "ch-1" "conn-3" "ccc") "ch-1" = 1
    ∧ (Conn.saveConnection
        [{ id := "conn-1", charity_id := "ch-1", mode := "charity", active := true,
           credentials_encrypted := "aaa" },
         { id := "conn-2", charity_id := "ch-1", mode := "charity", active := false,
           credentials_encrypted := "bbb" }]
        "ch-1" "conn-3" "ccc").map (fun r => r.id) = ["conn-1", "conn-2", "conn-3"] := by
  have h := connection_save_single_active
    [{ id := "conn-1", charity_id := "ch-1", mode := "charity", active := true,
       credentials_encrypted := "aaa" },
     { id := "conn-2", charity_id := "ch-1", mode := "charity", active := false,
       credentials_encrypted := "bbb" }]
    "ch-1" "conn-3" "ccc"
  exact ⟨h.1, by simpa using h.2.2.1⟩

end GiftAidPortal

namespace GiftAidPortal

/-- Claim C2: whenever the owning claim's status is not `draft`, every
add, edit and delete of one of its donation records is rejected and the
datastore is returned unchanged — no `claim_items` row is inserted,
updated or deleted.  The add handler checks the status itself; the edit
and delete handlers are stopped by the datastore trigger. -/
theorem nonDraft_item_mutations_rejected
    (db : Store.Db) (claimId s itemId : String) (it : Store.ItemRec)
    (firstName lastName address postcode addDate : String) (amt : ℚ)
    (newItem : Store.ItemRec)
    (donorName donorPostcode updDate : String) (declarationDate : Option String)
    (hs : Store.claimStatus db claimId = some s) (hnd : ¬(s = "draft"))
    (hfind : db.claim_items.find? (fun j => j.id = itemId) = some it)
    (hown : it.claim_id = claimId)
    (hiid : ¬(itemId = ""))
    (hnm : ¬(donorName = "")) (hpc : ¬(donorPostcode = "")) (hdt : ¬(updDate = ""))
    (hamt : 0 < amt)
    (hcid : ¬(claimId = "")) (hfn : ¬(jsTrim firstName = "")) (hln : ¬(jsTrim lastName = ""))
    (had : ¬(jsTrim address = "")) (hpo : ¬(jsTrim postcode = ""))
    (hdd : isIsoDateShape addDate = true) :
    Store.addItemHandler db claimId firstName lastName address postcode addDate amt newItem
      = (400, db)
    ∧ Store.updateItemHandler db itemId donorName donorPostcode updDate amt declarationDate
      = (500, db)
    ∧ Store.deleteItemHandler db itemId = (500, db) := by
  have hclaim : ∃ c, db.claims.find? (fun x => x.id = claimId) = some c ∧ c.status = s := by
    unfold Store.claimStatus at hs
    cases hf : db.claims.find? (fun x => x.id = claimId) with
    | none => rw [hf] at hs; simp at hs
    | some c => rw [hf] at hs; simp at hs; exact ⟨c, rfl, hs⟩
  obtain ⟨c, hc, hcs⟩ := hclaim
  have hamt' : ¬(amt ≤ 0) := not_le.mpr hamt
  have htrig : Store.triggerAllowsMutation db it.claim_id = false := by
    simp [Store.triggerAllowsMutation, hown, hs, hnd]
  refine ⟨?_, ?_, ?_⟩
  · simp [Store.addItemHandler, hcid, hfn, hln, had, hpo, hdd, hamt', hc, hcs, hnd]
  · simp [Store.updateItemHandler, hiid, hnm, hpc, hdt, hamt', hfind, htrig]
  · simp [Store.deleteItemHandler, hiid, hfind, htrig]

/-- Witness for `nonDraft_item_mutations_rejected`: on a store holding
one `ready` claim and one of its items, add, edit and delete all fail
(400/500/500) and return the store unchanged. -/
theorem nonDraft_item_mutations_rejected_witness :
    Store.addItemHandler
      { claims := [{ id := "c1", charity_id := "ch1", status := "ready",
                     donation_count := some 1, total_amount := some 5 }],
        claim_items := [{ id := "i1", claim_id := "c1", donor_name := "Ada Lovelace",
                          donor_postcode := "AB1 2CD", donation_date := "2024-05-01",
                          donation_amount := 5, gift_aid_declaration_date := none }] }
      "c1" "Grace" "Hopper" "2 Test Way" "ZZ9 9ZZ" "2024-05-02" 7
      { id := "i2", claim_id := "c1", donor_name := "Grace Hopper",
        donor_postcode := "ZZ9 9ZZ", donation_date := "2024-05-02",
        donation_amount := 7, gift_aid_declaration_date := none }
      = (400,
        { claims := [{ id := "c1", charity_id := "ch1", status := "ready",
                       donation_count := some 1, total_amount := some 5 }],
          claim_items := [{ id := "i1", claim_id := "c1", donor_name := "Ada Lovelace",
                            donor_postcode := "AB1 2CD", donation_date := "2024-05-01",
                            donation_amount := 5, gift_aid_declaration_date := none }] })
    ∧ Store.updateItemHandler
      { claims := [{ id := "c1", charity_id := "ch1", status := "ready",
                     donation_count := some 1, total_amount := some 5 }],
        claim_items := [{ id := "i1", claim_id := "c1", donor_name := "Ada Lovelace",
                          donor_postcode := "AB1 2CD", donation_date := "2024-05-01",
                          donation_amount := 5, gift_aid_declaration_date := none }] }
      "i1" "Ada L" "AB1 2CD" "2024-05-03" 7 none
      = (500,
        { claims := [{ id := "c1", charity_id := "ch1", status := "ready",
                       donation_count := some 1, total_amount := some 5 }],
          claim_items := [{ id := "i1", claim_id := "c1", donor_name := "Ada Lovelace",
                            donor_postcode := "AB1 2CD", donation_date := "2024-05-01",
                            donation_amount := 5, gift_aid_declaration_date := none }] })
    ∧ Store.deleteItemHandler
      { claims := [{ id := "c1", charity_id := "ch1", status := "ready",
                     donation_count := some 1, total_amount := some 5 }],
        claim_items := [{ id := "i1", claim_id := "c1", donor_name := "Ada Lovelace",
                          donor_postcode := "AB1 2CD", donation_date := "2024-05-01",
                          donation_amount := 5, gift_aid_declaration_date := none }] }
      "i1"
      = (500,
        { claims := [{ id := "c1", charity_id := "ch1", status := "ready",
                       donation_count := some 1, total_amount := some 5 }],
          claim_items := [{ id := "i1", claim_id := "c1", donor_name := "Ada Lovelace",
                            donor_postcode := "AB1 2CD", donation_date := "2024-05-01",
                            donation_amount := 5, gift_aid_declaration_date := none }] }) := by
  have h := nonDraft_item_mutations_rejected
    { claims := [{ id := "c1", charity_id := "ch1", status := "ready",
                   donation_count := some 1, total_amount := some 5 }],
      claim_items := [{ id := "i1", claim_id := "c1", donor_name := "Ada Lovelace",
                        donor_postcode := "AB1 2CD", donation_date := "2024-05-01",
                        donation_amount := 5, gift_aid_declaration_date := none }] }
    "c1" "ready" "i1"
    { id := "i1", claim_id := "c1", donor_name := "Ada Lovelace",
      donor_postcode := "AB1 2CD", donation_date := "2024-05-01",
      donation_amount := 5, gift_aid_declaration_date := none }
    "Grace" "Hopper" "2 Test Way" "ZZ9 9ZZ" "2024-05-02" 7
    { id := "i2", claim_id := "c1", donor_name := "Grace Hopper",
      donor_postcode := "ZZ9 9ZZ", donation_date := "2024-05-02",
      donation_amount := 7, gift_aid_declaration_date := none }
    "Ada L" "AB1 2CD" "2024-05-03" none
    (by decide) (by decide) (by decide) (by decide) (by decide) (by decide) (by decide)
    (by decide) (by decide) (by decide) (by decide) (by decide) (by decide) (by decide)
    (by decide)
  exact h

end GiftAidPortal


namespace GiftAidPortal

/-- Claim C4 counterexample: the mark-ready handler performs no check of
the claim's current status — a claim already in status `submitted` (with
one donation record) is moved back to `ready` with HTTP 200 instead of
being rejected. -/
theorem mark_ready_resets_submitted_claim_cx :
    Store.markReadyHandler
      { claims := [{ id := "c1", charity_id := "ch1", status := "submitted",
                     donation_count := some 1, total_amount := some 5 }],
        claim_items := [{ id := "i1", claim_id := "c1", donor_name := "Ada Lovelace",
                          donor_postcode := "AB1 2CD", donation_date := "2024-05-01",
                          donation_amount := 5, gift_aid_declaration_date := none }] }
      "c1"
      = (200,
        { claims := [{ id := "c1", charity_id := "ch1", status := "ready",
                       donation_count := some 1, total_amount := some 5 }],
          claim_items := [{ id := "i1", claim_id := "c1", donor_name := "Ada Lovelace",
                            donor_postcode := "AB1 2CD", donation_date := "2024-05-01",
                            donation_amount := 5, gift_aid_declaration_date := none }] }) := by
  simp [Store.markReadyHandler, List.filter]

/-- Helper: the empty-claim branch of the mark-ready handler. -/
theorem markReady_empty (db : Store.Db) (claimId : String) (hcid : ¬(claimId = ""))
    (h : db.claim_items.filter (fun it => it.claim_id = claimId) = []) :
    Store.markReadyHandler db claimId = (400, db) := by
  unfold Store.markReadyHandler
  rw [if_neg hcid]
  simp [h]

/-- Helper: the success branch of the mark-ready handler. -/
theorem markReady_success (db : Store.Db) (claimId : String) (hcid : ¬(claimId = ""))
    (h : ¬(db.claim_items.filter (fun it => it.claim_id = claimId) = [])) :
    Store.markReadyHandler db claimId = (200, Store.markReadyResult db claimId) := by
  unfold Store.markReadyHandler Store.markReadyResult
  rw [if_neg hcid]
  have hlen : ¬((db.claim_items.filter (fun it => it.claim_id = claimId)).length = 0) := by
    simpa [List.length_eq_zero] using h
  simp [hlen]

/-- Helper: re-running the ready update on an already-updated store
changes nothing (the update rewrites the same fields with the same
recomputed values, and the item table is untouched). -/
theorem markReadyResult_idem (db : Store.Db) (claimId : String) :
    Store.markReadyResult (Store.markReadyResult db claimId) claimId
      = Store.markReadyResult db claimId := by
  unfold Store.markReadyResult
  simp only [List.map_map]
  congr 1
  apply List.map_congr_left
  intro c _
  by_cases hc : c.id = claimId <;> simp [hc]

/-- Claim C4 (amended): marking a claim ready requires at least one
donation record (an empty claim is rejected with 400 and the datastore is
unchanged); on success it sets `donation_count` to the number of the
claim's records, `total_amount` to the sum of their amounts, and the
status to `ready`; re-running the transition is idempotent (re-entry from
`ready` changes nothing).  The handler checks no current status, so the
transition also succeeds — and resets the status to `ready` — on claims
in `submitted`, `accepted`, `rejected` or `failed`. -/
theorem mark_ready_recomputes_and_ignores_status (db : Store.Db) (claimId : String)
    (hcid : ¬(claimId = "")) :
    (db.claim_items.filter (fun it => it.claim_id = claimId) = [] →
      Store.markReadyHandler db claimId = (400, db))
    ∧ (¬(db.claim_items.filter (fun it => it.claim_id = claimId) = []) →
      Store.markReadyHandler db claimId = (200, Store.markReadyResult db claimId))
    ∧ Store.markReadyHandler (Store.markReadyHandler db claimId).2 claimId
        = Store.markReadyHandler db claimId := by
  refine ⟨markReady_empty db claimId hcid, markReady_success db claimId hcid, ?_⟩
  by_cases hempty : db.claim_items.filter (fun it => it.claim_id = claimId) = []
  · have h1 := markReady_empty db claimId hcid hempty
    rw [h1]
    exact h1
  · have h2 := markReady_success db claimId hcid hempty
    rw [h2]
    have hitems : (Store.markReadyResult db claimId).claim_items = db.claim_items := rfl
    have h3 : ¬((Store.markReadyResult db claimId).claim_items.filter
        (fun it => it.claim_id = claimId) = []) := by rw [hitems]; exact hempty
    have h4 := markReady_success (Store.markReadyResult db claimId) claimId hcid h3
    rw [h4, markReadyResult_idem]

end GiftAidPortal

namespace GiftAidPortal

/-- Witness for `mark_ready_recomputes_and_ignores_status`: a draft claim
with two records (amounts 10 and 25.5) is marked ready with
`donation_count = 2` and `total_amount = 35.5`. -/
theorem mark_ready_recomputes_witness :
    Store.markReadyHandler
      { claims := [{ id := "c1", charity_id := "ch1", status := "draft",
                     donation_count := none, total_amount := none }],
        claim_items :=
          [{ id := "i1", claim_id := "c1", donor_name := "Ada Lovelace",
             donor_postcode := "AB1 2CD", donation_date := "2024-05-01",
             donation_amount := 10, gift_aid_declaration_date := none },
           { id := "i2", claim_id := "c1", donor_name := "Grace Hopper",
             donor_postcode := "ZZ9 9ZZ", donation_date := "2024-06-15",
             donation_amount := 51/2, gift_aid_declaration_date := none }] }
      "c1"
      = (200,
        { claims := [{ id := "c1", charity_id := "ch1", status := "ready",
                       donation_count := some 2, total_amount := some (71/2) }],
          claim_items :=
            [{ id := "i1", claim_id := "c1", donor_name := "Ada Lovelace",
               donor_postcode := "AB1 2CD", donation_date := "2024-05-01",
               donation_amount := 10, gift_aid_declaration_date := none },
             { id := "i2", claim_id := "c1", donor_name := "Grace Hopper",
               donor_postcode := "ZZ9 9ZZ", donation_date := "2024-06-15",
               donation_amount := 51/2, gift_aid_declaration_date := none }] }) := by
  have h := (mark_ready_recomputes_and_ignores_status
    { claims := [{ id := "c1", charity_id := "ch1", status := "draft",
                   donation_count := none, total_amount := none }],
      claim_items :=
        [{ id := "i1", claim_id := "c1", donor_name := "Ada Lovelace",
           donor_postcode := "AB1 2CD", donation_date := "2024-05-01",
           donation_amount := 10, gift_aid_declaration_date := none },
         { id := "i2", claim_id := "c1", donor_name := "Grace Hopper",
           donor_postcode := "ZZ9 9ZZ", donation_date := "2024-06-15",
           donation_amount := 51/2, gift_aid_declaration_date := none }] }
    "c1" (by decide)).2.1 (by decide)
  rw [h]
  simp [Store.markReadyResult, List.filter]
  norm_num

end GiftAidPortal

namespace GiftAidPortal

/-- Helper: escaping a single character never yields the empty string. -/
theorem escChar_data_ne_nil (c : Char) : ¬((escChar c).data = []) := by
  unfold escChar
  repeat' split
  all_goals simp [String.singleton]

/-- Helper: appending to a nonempty string keeps it nonempty. -/
theorem string_append_ne_empty_left (a b : String) (h : ¬(a = "")) : ¬(a ++ b = "") := by
  intro hc
  apply h
  have hd : (a ++ b).data = ([] : List Char) := by rw [hc]
  rw [String.data_append] at hd
  rcases List.append_eq_nil.mp hd with ⟨ha, _⟩
  cases a
  simp_all

/-- Helper: a left fold of appends over strings, started from a nonempty
string, stays nonempty. -/
theorem foldl_append_ne_empty (l : List String) (a : String) (h : ¬(a = "")) :
    ¬(List.foldl (fun r s => r ++ s) a l = "") := by
  induction l generalizing a with
  | nil => simpa using h
  | cons x xs ih => exact ih (a ++ x) (string_append_ne_empty_left a x h)

/-- Helper: `xmlEscape` maps nonempty input to nonempty output. -/
theorem xmlEscape_ne_empty (s : String) (h : ¬(s = "")) : ¬(xmlEscape s = "") := by
  cases s with
  | mk data =>
    cases data with
    | nil => exact absurd rfl h
    | cons c cs =>
      unfold xmlEscape
      simp [String.join]
      apply foldl_append_ne_empty
      intro hc
      exact escChar_data_ne_nil c (congrArg String.data hc)

end GiftAidPortal

namespace GiftAidPortal

/-- Helper: on a claim that passes every precondition and validation, the
v4 generator reaches the render stage: its result is the template with
the `giftAidVars` substituted (guarded by the leftover-placeholder safety
check). -/
theorem generate_v4_render (jsDate : String → Option (Nat × Nat × Nat))
    (env : XmlV4.EnvConfig) (nowIso claimId : String)
    (claimRow : XmlV4.ClaimRow) (charityRow : XmlV4.CharityRow)
    (items : List XmlV4.ClaimItemRow)
    (hid : ¬(jsTrim claimId = ""))
    (hpe : ¬(normalizeDate jsDate (claimRow.period_end.getD "") = ""))
    (hch : ¬(jsTrim (charityRow.charity_id.getD "") = ""))
    (hitems : ¬(items = []))
    (hval : XmlV4.validateItems jsDate items = Except.ok ()) :
    XmlV4.generateHmrcGiftAidXml jsDate env nowIso claimId (some claimRow) (some charityRow) items
      = (if strContains (replaceAllPlaceholders XmlV4.fallbackTemplate
            (XmlV4.giftAidVars env nowIso claimRow (jsTrim (charityRow.charity_id.getD ""))
              (normalizeDate jsDate (claimRow.period_end.getD ""))
              (String.intercalate "\n" (items.map (XmlV4.buildGadRowXml jsDate)))
              (XmlV4.earliestDonationDate jsDate items
                (normalizeDate jsDate (claimRow.period_end.getD "")))
              charityRow)) "\x7b\x7b" = true
          then Except.error "XML template still has unreplaced placeholders."
          else Except.ok (replaceAllPlaceholders XmlV4.fallbackTemplate
            (XmlV4.giftAidVars env nowIso claimRow (jsTrim (charityRow.charity_id.getD ""))
              (normalizeDate jsDate (claimRow.period_end.getD ""))
              (String.intercalate "\n" (items.map (XmlV4.buildGadRowXml jsDate)))
              (XmlV4.earliestDonationDate jsDate items
                (normalizeDate jsDate (claimRow.period_end.getD "")))
              charityRow))) := by
  unfold XmlV4.generateHmrcGiftAidXml
  simp [hid, hpe, hch, hitems, hval]

end GiftAidPortal

namespace GiftAidPortal

/-- Claim C3: in the mode-aware generator (the `hmrcXml.ts` revision
marked `HMRC_XML_VERSION = "2026-01-28-v1-ets-creds-and-ts-modes"`,
which defines the explicit ETS/LIVE/LTS mode enum), for every claim
rendered in test-gateway (ETS) or live-gateway (LIVE) mode the
`CorrelationID` and `GatewayTimestamp` header fields of the produced
envelope are emitted blank, and only in local-test-service (LTS) mode is
the timestamp populated.  Stated as: (1) on a claim passing every
precondition the generator renders the template with the correlation id
bound to `""` unconditionally and the gateway timestamp bound to `""`
unless the mode is LTS, where it is the current ISO timestamp with the
trailing `"Z"` replaced away; (2) the `vars` bind `CORRELATION_ID` and
`GATEWAY_TIMESTAMP` to exactly the escape of those two header fields;
(3) in ETS and LIVE modes the timestamp field is `""`, and escaping `""`
yields `""`, so both elements are blank; (4) in LTS mode the timestamp
field is the stripped timestamp and its escape is nonempty whenever the
stripped timestamp is; (5) the template wires those two variables into
the `<CorrelationID>` and `<GatewayTimestamp>` header elements. -/
theorem envelope_mode_header_policy (jsDate : String → Option (Nat × Nat × Nat))
    (env : XmlModes.EnvConfig) (nowIso claimId : String)
    (claimRow : XmlModes.ClaimRow) (charityRow : XmlModes.CharityRow)
    (items : List XmlModes.ClaimItemRow)
    (hid : ¬(jsTrim claimId = ""))
    (hpe : ¬(normalizeDate jsDate (claimRow.period_end.getD "") = ""))
    (hch : ¬(XmlModes.chooseCharIdForMode (XmlModes.getXmlMode env.xmlMode) env.testCharid
        (XmlModes.rawCharId charityRow) = ""))
    (hitems : ¬(items = []))
    (hval : XmlModes.validateItems jsDate items = Except.ok ()) :
    XmlModes.generateHmrcGiftAidXml jsDate env nowIso claimId
        (some claimRow) (some charityRow) items
      = (let mode := XmlModes.getXmlMode env.xmlMode
         let periodEnd := normalizeDate jsDate (claimRow.period_end.getD "")
         let periodStart :=
           let ps := normalizeDate jsDate (claimRow.period_start.getD "")
           if ps = "" then periodEnd else ps
         let charid := XmlModes.chooseCharIdForMode mode env.testCharid
           (XmlModes.rawCharId charityRow)
         let rows := String.intercalate "\n"
           (items.map (fun it => XmlV2.buildGadRowXml jsDate (XmlModes.toGadItem it)))
         let ega := XmlModes.earliestDonationDate jsDate items periodStart
         let gatewayTimestamp :=
           if mode = XmlModes.XmlMode.LTS then jsReplaceOnce nowIso "Z" "" else ""
         let creds := XmlModes.getSenderCreds mode env.senderId env.authValue
         let xml := replaceAllPlaceholders XmlModes.fallbackTemplate
           (XmlModes.giftAidVars mode env "" gatewayTimestamp creds.1 creds.2
             charid periodEnd rows ega charityRow)
         if strContains xml "\x7b\x7b" = true
         then Except.error "XML template still has unreplaced placeholders."
         else Except.ok xml)
    ∧ (∀ mode cid gt sid av charid pe rows ega ch,
        List.lookup "CORRELATION_ID"
          (XmlModes.giftAidVars mode env cid gt sid av charid pe rows ega ch)
          = some (xmlEscape cid)
        ∧ List.lookup "GATEWAY_TIMESTAMP"
          (XmlModes.giftAidVars mode env cid gt sid av charid pe rows ega ch)
          = some (xmlEscape gt))
    ∧ ((XmlModes.getXmlMode env.xmlMode = XmlModes.XmlMode.ETS ∨
        XmlModes.getXmlMode env.xmlMode = XmlModes.XmlMode.LIVE) →
        (if XmlModes.getXmlMode env.xmlMode = XmlModes.XmlMode.LTS
         then jsReplaceOnce nowIso "Z" "" else "") = ""
        ∧ xmlEscape "" = "")
    ∧ (XmlModes.getXmlMode env.xmlMode = XmlModes.XmlMode.LTS →
        (if XmlModes.getXmlMode env.xmlMode = XmlModes.XmlMode.LTS
         then jsReplaceOnce nowIso "Z" "" else "") = jsReplaceOnce nowIso "Z" ""
        ∧ (¬(jsReplaceOnce nowIso "Z" "" = "") →
           ¬(xmlEscape (jsReplaceOnce nowIso "Z" "") = "")))
    ∧ "      <CorrelationID>\x7b\x7bCORRELATION_ID\x7d\x7d</CorrelationID>"
        ∈ XmlModes.fallbackTemplateLines
    ∧ "      <GatewayTimestamp>\x7b\x7bGATEWAY_TIMESTAMP\x7d\x7d</GatewayTimestamp>"
        ∈ XmlModes.fallbackTemplateLines := by
  refine ⟨?_, ?_, ?_, ?_, by decide, by decide⟩
  · unfold XmlModes.generateHmrcGiftAidXml
    simp [hid, hpe, hch, hitems, hval]
  · intro mode cid gt sid av charid pe rows ega ch
    exact ⟨by simp [XmlModes.giftAidVars, List.lookup],
           by simp [XmlModes.giftAidVars, List.lookup]⟩
  · rintro (h | h) <;> exact ⟨if_neg (by simp [h]), rfl⟩
  · intro h
    exact ⟨if_pos h, fun hne => xmlEscape_ne_empty _ hne⟩

/-- Witness for `envelope_mode_header_policy`: applying it once with
`HMRC_XML_MODE = "ETS"` and once with `HMRC_XML_MODE = "LTS"` on a
concrete claim shows the rendered variables bind both header fields to
the escape of `""` (blank) under ETS, and that under LTS the timestamp
field (the concrete ISO timestamp with its `"Z"` stripped) escapes to a
nonempty value. -/
theorem envelope_mode_header_policy_witness :
    List.lookup "CORRELATION_ID"
      (XmlModes.giftAidVars XmlModes.XmlMode.ETS
        { xmlMode := some "ETS", senderId := none, authValue := none, gatewayTest := none,
          testCharid := none, vendorId := none, productName := none, productVersion := none,
          irmark := none, officialFore := none, officialSur := none, officialPostcode := none,
          officialPhone := none, regName := none, regNo := none }
        "" "" "323412300001" "testing1" "AB12345" "2024-06-30" "ROWS" "2024-05-01"
        { id := "ch-1", name := "Charity One", contact_email := none,
          charity_number := some "AB12345", charity_id := none })
      = some (xmlEscape "")
    ∧ List.lookup "GATEWAY_TIMESTAMP"
      (XmlModes.giftAidVars XmlModes.XmlMode.ETS
        { xmlMode := some "ETS", senderId := none, authValue := none, gatewayTest := none,
          testCharid := none, vendorId := none, productName := none, productVersion := none,
          irmark := none, officialFore := none, officialSur := none, officialPostcode := none,
          officialPhone := none, regName := none, regNo := none }
        "" "" "323412300001" "testing1" "AB12345" "2024-06-30" "ROWS" "2024-05-01"
        { id := "ch-1", name := "Charity One", contact_email := none,
          charity_number := some "AB12345", charity_id := none })
      = some (xmlEscape "")
    ∧ xmlEscape "" = ""
    ∧ ¬(xmlEscape (jsReplaceOnce "2026-01-01T00:00:00.000Z" "Z" "") = "") := by
  have hE := envelope_mode_header_policy (fun _ => none)
    { xmlMode := some "ETS", senderId := none, authValue := none, gatewayTest := none,
      testCharid := none, vendorId := none, productName := none, productVersion := none,
      irmark := none, officialFore := none, officialSur := none, officialPostcode := none,
      officialPhone := none, regName := none, regNo := none }
    "2026-01-01T00:00:00.000Z" "claim-1"
    { id := "claim-1", charity_id := "ch-1", period_start := some "2024-04-01",
      period_end := some "2024-06-30" }
    { id := "ch-1", name := "Charity One", contact_email := none,
      charity_number := some "AB12345", charity_id := none }
    [{ id := "i1", donor_first_name := "Ada", donor_last_name := "Lovelace",
       donor_address := "1 Test Way", donor_postcode := "AB1 2CD",
       donation_date := "2024-05-01", donation_amount := 10 }]
    (by decide) (by decide) (by decide) (by decide) (by rfl)
  have hL := envelope_mode_header_policy (fun _ => none)
    { xmlMode := some "LTS", senderId := none, authValue := none, gatewayTest := none,
      testCharid := none, vendorId := none, productName := none, productVersion := none,
      irmark := none, officialFore := none, officialSur := none, officialPostcode := none,
      officialPhone := none, regName := none, regNo := none }
    "2026-01-01T00:00:00.000Z" "claim-1"
    { id := "claim-1", charity_id := "ch-1", period_start := some "2024-04-01",
      period_end := some "2024-06-30" }
    { id := "ch-1", name := "Charity One", contact_email := none,
      charity_number := some "AB12345", charity_id := none }
    [{ id := "i1", donor_first_name := "Ada", donor_last_name := "Lovelace",
       donor_address := "1 Test Way", donor_postcode := "AB1 2CD",
       donation_date := "2024-05-01", donation_amount := 10 }]
    (by decide) (by decide) (by decide) (by decide) (by rfl)
  refine ⟨(hE.2.1 XmlModes.XmlMode.ETS "" "" "323412300001" "testing1" "AB12345"
      "2024-06-30" "ROWS" "2024-05-01"
      { id := "ch-1", name := "Charity One", contact_email := none,
        charity_number := some "AB12345", charity_id := none }).1,
    (hE.2.1 XmlModes.XmlMode.ETS "" "" "323412300001" "testing1" "AB12345"
      "2024-06-30" "ROWS" "2024-05-01"
      { id := "ch-1", name := "Charity One", contact_email := none,
        charity_number := some "AB12345", charity_id := none }).2,
    (hE.2.2.1 (Or.inl (by decide))).2,
    (hL.2.2.2.1 (by decide)).2 (by decide)⟩

end GiftAidPortal

namespace GiftAidPortal

/-- Helper: the head of the lexicographically sorted list is a member and
a lower bound — i.e. `dates.sort()[0]` is the minimum date string. -/
theorem headD_mergeSort_le (l : List String) (fb : String) (hne : ¬(l = [])) :
    (l.mergeSort (fun a b => decide (a ≤ b))).headD fb ∈ l
    ∧ ∀ d ∈ l, (l.mergeSort (fun a b => decide (a ≤ b))).headD fb ≤ d := by
  have hperm := List.mergeSort_perm l (fun a b => decide (a ≤ b))
  have htrans : ∀ (a b c : String),
      (fun a b => decide (a ≤ b)) a b → (fun a b => decide (a ≤ b)) b c →
      (fun a b => decide (a ≤ b)) a c := by
    intro a b c hab hbc
    simp only [decide_eq_true_eq] at hab hbc ⊢
    exact le_trans hab hbc
  have htotal : ∀ (a b : String),
      ((fun a b => decide (a ≤ b)) a b || (fun a b => decide (a ≤ b)) b a) = true := by
    intro a b
    simp only [Bool.or_eq_true, decide_eq_true_eq]
    exact le_total a b
  have hsorted := List.sorted_mergeSort htrans htotal l
  cases hms : l.mergeSort (fun a b => decide (a ≤ b)) with
  | nil =>
    exfalso
    apply hne
    have hlen := hperm.length_eq
    rw [hms] at hlen
    simpa [List.length_eq_zero] using hlen.symm
  | cons h t =>
    rw [hms] at hperm hsorted
    constructor
    · exact hperm.mem_iff.mp (List.mem_cons_self h t)
    · intro d hd
      have hd2 : d ∈ h :: t := hperm.symm.subset hd
      rcases List.mem_cons.mp hd2 with heq | hdt
      · subst heq
        simp
      · have hrel := (List.pairwise_cons.mp hsorted).1 d hdt
        simp only [decide_eq_true_eq] at hrel
        simpa using hrel

end GiftAidPortal

namespace GiftAidPortal

/-- Claim C5 counterexample: a claim with NO donation rows is not
rendered with `EarliestGAdate` equal to the period start — the v4
generator rejects the build outright ("No donation items found for this
claim"), and its internal fallback (reachable only if rows existed whose
dates all failed to normalize) is the normalized period END, not the
period start. -/
theorem earliest_gadate_no_rows_rejected_cx :
    XmlV4.generateHmrcGiftAidXml (fun _ => none)
      { gatewayTest := some "1", senderId := none, authValue := none, irmark := none,
        officialFore := none, officialSur := none, officialPostcode := none,
        officialPhone := none, regName := none, regNo := none }
      "2026-01-01T00:00:00.000Z" "claim-1"
      (some { id := "claim-1", charity_id := "ch-1", period_start := some "2024-04-01",
              period_end := some "2024-06-30" })
      (some { id := "ch-1", name := "Charity One", contact_email := none,
              charity_id := some "AB123" })
      []
      = Except.error "No donation items found for this claim"
    ∧ XmlV4.earliestDonationDate (fun _ => none) [] "2024-06-30" = "2024-06-30" := by
  exact ⟨rfl, by simp [XmlV4.earliestDonationDate]⟩

/-- Claim C5 (amended): the `EarliestGAdate` variable of the rendered
envelope is `earliestDonationDate`'s output escaped; on rows with at
least one normalizable `YYYY-MM-DD` date that output is the minimum of
the normalized dates; when no normalized date remains it is the fallback
argument — which the generator passes as the normalized period END; and
with no rows at all the build fails ("No donation items found for this
claim") instead of producing an envelope. -/
theorem earliest_gadate_min_or_reject (jsDate : String → Option (Nat × Nat × Nat))
    (env : XmlV4.EnvConfig) (nowIso claimId : String)
    (claimRow : XmlV4.ClaimRow) (charityRow : XmlV4.CharityRow)
    (hid : ¬(jsTrim claimId = ""))
    (hpe : ¬(normalizeDate jsDate (claimRow.period_end.getD "") = ""))
    (hch : ¬(jsTrim (charityRow.charity_id.getD "") = "")) :
    XmlV4.generateHmrcGiftAidXml jsDate env nowIso claimId (some claimRow) (some charityRow) []
      = Except.error "No donation items found for this claim"
    ∧ (∀ (items : List XmlV4.ClaimItemRow) (fb : String),
        ¬((items.map (fun it => normalizeDate jsDate it.donation_date)).filter
            (fun d => isIsoDateShape d) = []) →
          XmlV4.earliestDonationDate jsDate items fb
              ∈ (items.map (fun it => normalizeDate jsDate it.donation_date)).filter
                  (fun d => isIsoDateShape d)
          ∧ ∀ d ∈ (items.map (fun it => normalizeDate jsDate it.donation_date)).filter
                  (fun d => isIsoDateShape d),
              XmlV4.earliestDonationDate jsDate items fb ≤ d)
    ∧ (∀ (items : List XmlV4.ClaimItemRow) (fb : String),
        (items.map (fun it => normalizeDate jsDate it.donation_date)).filter
            (fun d => isIsoDateShape d) = [] →
          XmlV4.earliestDonationDate jsDate items fb = fb)
    ∧ (∀ charid periodEnd rowsXml ega,
        List.lookup "EARLIEST_GA_DATE"
          (XmlV4.giftAidVars env nowIso claimRow charid periodEnd rowsXml ega charityRow)
          = some (xmlEscape ega))
    ∧ (∀ (items : List XmlV4.ClaimItemRow),
        ¬(items = []) → XmlV4.validateItems jsDate items = Except.ok () →
        XmlV4.generateHmrcGiftAidXml jsDate env nowIso claimId (some claimRow)
            (some charityRow) items
          = (if strContains (replaceAllPlaceholders XmlV4.fallbackTemplate
                (XmlV4.giftAidVars env nowIso claimRow (jsTrim (charityRow.charity_id.getD ""))
                  (normalizeDate jsDate (claimRow.period_end.getD ""))
                  (String.intercalate "\n" (items.map (XmlV4.buildGadRowXml jsDate)))
                  (XmlV4.earliestDonationDate jsDate items
                    (normalizeDate jsDate (claimRow.period_end.getD "")))
                  charityRow)) "\x7b\x7b" = true
              then Except.error "XML template still has unreplaced placeholders."
              else Except.ok (replaceAllPlaceholders XmlV4.fallbackTemplate
                (XmlV4.giftAidVars env nowIso claimRow (jsTrim (charityRow.charity_id.getD ""))
                  (normalizeDate jsDate (claimRow.period_end.getD ""))
                  (String.intercalate "\n" (items.map (XmlV4.buildGadRowXml jsDate)))
                  (XmlV4.earliestDonationDate jsDate items
                    (normalizeDate jsDate (claimRow.period_end.getD "")))
                  charityRow)))) := by
  refine ⟨?_, ?_, ?_, ?_, ?_⟩
  · unfold XmlV4.generateHmrcGiftAidXml
    simp [hid, hpe, hch]
  · intro items fb hne
    unfold XmlV4.earliestDonationDate
    exact headD_mergeSort_le _ fb hne
  · intro items fb hnil
    unfold XmlV4.earliestDonationDate
    rw [hnil]
    simp
  · intro charid periodEnd rowsXml ega
    simp [XmlV4.giftAidVars, List.lookup]
  · intro items hitems hval
    exact generate_v4_render jsDate env nowIso claimId claimRow charityRow items
      hid hpe hch hitems hval

/-- Witness for `earliest_gadate_min_or_reject`: with two rows dated
2024-06-15 and 2024-05-01, the earliest date evaluates to 2024-05-01, and
with no rows the concrete build is rejected. -/
theorem earliest_gadate_min_witness :
    XmlV4.generateHmrcGiftAidXml (fun _ => none)
      { gatewayTest := some "1", senderId := none, authValue := none, irmark := none,
        officialFore := none, officialSur := none, officialPostcode := none,
        officialPhone := none, regName := none, regNo := none }
      "2026-01-01T00:00:00.000Z" "claim-1"
      (some { id := "claim-1", charity_id := "ch-1", period_start := some "2024-04-01",
              period_end := some "2024-06-30" })
      (some { id := "ch-1", name := "Charity One", contact_email := none,
              charity_id := some "AB123" })
      []
      = Except.error "No donation items found for this claim"
    ∧ XmlV4.earliestDonationDate (fun _ => none)
        [{ id := "i2", donor_title := none, donor_first_name := "Grace",
           donor_last_name := "Hopper", donor_address := "2 Test Way",
           donor_postcode := "ZZ9 9ZZ", donation_date := "2024-06-15",
           donation_amount := 51/2 },
         { id := "i1", donor_title := none, donor_first_name := "Ada",
           donor_last_name := "Lovelace", donor_address := "1 Test Way",
           donor_postcode := "AB1 2CD", donation_date := "2024-05-01",
           donation_amount := 10 }] "2024-06-30"
      = "2024-05-01" := by
  have h := earliest_gadate_min_or_reject (fun _ => none)
    { gatewayTest := some "1", senderId := none, authValue := none, irmark := none,
      officialFore := none, officialSur := none, officialPostcode := none,
      officialPhone := none, regName := none, regNo := none }
    "2026-01-01T00:00:00.000Z" "claim-1"
    { id := "claim-1", charity_id := "ch-1", period_start := some "2024-04-01",
      period_end := some "2024-06-30" }
    { id := "ch-1", name := "Charity One", contact_email := none, charity_id := some "AB123" }
    (by decide) (by decide) (by decide)
  refine ⟨h.1, ?_⟩
  obtain ⟨hmem, hmin⟩ := h.2.1
    [{ id := "i2", donor_title := none, donor_first_name := "Grace",
       donor_last_name := "Hopper", donor_address := "2 Test Way",
       donor_postcode := "ZZ9 9ZZ", donation_date := "2024-06-15",
       donation_amount := 51/2 },
     { id := "i1", donor_title := none, donor_first_name := "Ada",
       donor_last_name := "Lovelace", donor_address := "1 Test Way",
       donor_postcode := "AB1 2CD", donation_date := "2024-05-01",
       donation_amount := 10 }] "2024-06-30" (by decide)
  have hlist :
      (([{ id := "i2", donor_title := none, donor_first_name := "Grace",
           donor_last_name := "Hopper", donor_address := "2 Test Way",
           donor_postcode := "ZZ9 9ZZ", donation_date := "2024-06-15",
           donation_amount := 51/2 },
         { id := "i1", donor_title := none, donor_first_name := "Ada",
           donor_last_name := "Lovelace", donor_address := "1 Test Way",
           donor_postcode := "AB1 2CD", donation_date := "2024-05-01",
           donation_amount := 10 }] : List XmlV4.ClaimItemRow).map
            (fun it => normalizeDate (fun _ => none) it.donation_date)).filter
        (fun d => isIsoDateShape d) = ["2024-06-15", "2024-05-01"] := rfl
  rw [hlist] at hmem hmin
  have hle := hmin "2024-05-01" (by simp)
  rcases List.mem_cons.mp hmem with heq | hmem2
  · exfalso
    rw [heq] at hle
    have hlt : ("2024-05-01" : String) < "2024-06-15" :=
      String.lt_iff_toList_lt.mpr (by decide)
    exact absurd hle (not_le.mpr hlt)
  · simpa using hmem2

end GiftAidPortal

namespace GiftAidPortal

/-- Helper: two strings with the same character data are equal. -/
theorem strExt (a b : String) (h : a.data = b.data) : a = b := by
  cases a; cases b; exact congrArg String.mk h

/-- Helper: the character data of a fold of string appends. -/
theorem data_foldl_append (l : List String) (a : String) :
    (List.foldl (fun r s => r ++ s) a l).data = a.data ++ (l.map String.data).flatten := by
  induction l generalizing a with
  | nil => simp
  | cons x xs ih => simp [ih (a ++ x), String.data_append, List.append_assoc]

/-- Helper: escaping a string whose characters all escape to themselves
returns the string unchanged. -/
theorem xmlEscape_of_plain (s : String) (h : ∀ c ∈ s.data, escChar c = String.singleton c) :
    xmlEscape s = s := by
  apply strExt
  unfold xmlEscape
  rw [String.join, data_foldl_append]
  cases s with
  | mk data =>
    simp only [String.data]
    induction data with
    | nil => rfl
    | cons c cs ih =>
      have hc := h c (List.mem_cons_self c cs)
      have ihh := ih (fun c hm => h c (List.mem_cons_of_mem _ hm))
      simp only [List.map_cons, List.flatten_cons, hc] at *
      simp [String.singleton] at *
      exact ihh

end GiftAidPortal

namespace GiftAidPortal

set_option maxRecDepth 4000 in
/-- Claim C8 counterexample: the `2026-01-18-v4` revision's row builder
emits the stored postcode verbatim — a stored `" ab1 2cd "` appears in
the rendered row untrimmed and in lower case, not as `"AB1 2CD"`. -/
theorem postcode_raw_v4_cx :
    strContains
      (XmlV4.buildGadRowXml (fun _ => none)
        { id := "i1", donor_title := none, donor_first_name := "Ada",
          donor_last_name := "Lovelace", donor_address := "1 Test Way",
          donor_postcode := " ab1 2cd ", donation_date := "2024-05-01",
          donation_amount := 10 })
      "<Postcode> ab1 2cd </Postcode>" = true
    ∧ strContains
      (XmlV4.buildGadRowXml (fun _ => none)
        { id := "i1", donor_title := none, donor_first_name := "Ada",
          donor_last_name := "Lovelace", donor_address := "1 Test Way",
          donor_postcode := " ab1 2cd ", donation_date := "2024-05-01",
          donation_amount := 10 })
      "<Postcode>AB1 2CD</Postcode>" = false := by
  constructor <;> decide

set_option maxRecDepth 4000 in
/-- Claim C8 (amended): in the `2026-01-26-v2` revision — the one that
defines `normalizePostcode` — every rendered donation row carries the
stored postcode trimmed of surrounding whitespace and upper-cased
(XML-escaped, like every interpolated field; escaping is the identity on
any postcode free of the five escaped characters).  The older
`2026-01-18-v4` row builder in the same module emits the stored postcode
unchanged. -/
theorem postcode_normalized_v2_rows (jsDate : String → Option (Nat × Nat × Nat))
    (item : XmlV2.GadItem) :
    XmlV2.normalizePostcode item.donor_postcode = jsToUpper (jsTrim item.donor_postcode)
    ∧ XmlV2.buildGadRowXml jsDate item
        = "            <GAD>\n              <Donor>\n                <Fore>"
          ++ xmlEscape (jsTrim item.donor_first_name)
          ++ "</Fore>\n                <Sur>" ++ xmlEscape (jsTrim item.donor_last_name)
          ++ "</Sur>\n                <House>" ++ xmlEscape (jsTrim item.donor_address)
          ++ "</House>\n                <Postcode>"
          ++ xmlEscape (jsToUpper (jsTrim item.donor_postcode))
          ++ "</Postcode>\n              </Donor>\n              <Date>"
          ++ xmlEscape (normalizeDate jsDate item.donation_date)
          ++ "</Date>\n              <Total>" ++ xmlEscape (formatMoney item.donation_amount)
          ++ "</Total>\n            </GAD>"
    ∧ (∀ s : String, (∀ c ∈ s.data, escChar c = String.singleton c) → xmlEscape s = s) := by
  refine ⟨rfl, ?_, xmlEscape_of_plain⟩
  apply strExt
  unfold XmlV2.buildGadRowXml XmlV2.normalizePostcode
  simp [String.intercalate, String.intercalate.go, String.data_append]

set_option maxRecDepth 4000 in
/-- Witness for `postcode_normalized_v2_rows`: a stored postcode
`" ab1 2cd "` renders as `<Postcode>AB1 2CD</Postcode>` in the full row. -/
theorem postcode_normalized_v2_rows_witness :
    XmlV2.buildGadRowXml (fun _ => none)
      { donor_first_name := "Ada", donor_last_name := "Lovelace",
        donor_address := "1 Test Way", donor_postcode := " ab1 2cd ",
        donation_date := "2024-05-01", donation_amount := 10 }
      = "            <GAD>\n              <Donor>\n                <Fore>Ada</Fore>\n                <Sur>Lovelace</Sur>\n                <House>1 Test Way</House>\n                <Postcode>AB1 2CD</Postcode>\n              </Donor>\n              <Date>2024-05-01</Date>\n              <Total>10.00</Total>\n            </GAD>" := by
  rw [(postcode_normalized_v2_rows (fun _ => none)
    { donor_first_name := "Ada", donor_last_name := "Lovelace",
      donor_address := "1 Test Way", donor_postcode := " ab1 2cd ",
      donation_date := "2024-05-01", donation_amount := 10 }).2.1]
  decide

end GiftAidPortal

namespace GiftAidPortal.Vault

/-- Helper: decoding inverts encoding on every sextet value. -/
theorem sextetVal_sextetChar_fin : ∀ n : Fin 64, sextetVal (sextetChar n.val) = some n.val := by
  decide

/-- Helper: no alphabet character is the padding character. -/
theorem sextetChar_ne_pad_fin : ∀ n : Fin 64, ¬(sextetChar n.val = '=') := by decide

/-- Helper: no alphabet character is the component separator. -/
theorem sextetChar_ne_dot_fin : ∀ n : Fin 64, ¬(sextetChar n.val = '.') := by decide

/-- Helper: `sextetVal`/`sextetChar` roundtrip, `Nat` form. -/
theorem sextetVal_sextetChar (n : Nat) (h : n < 64) : sextetVal (sextetChar n) = some n :=
  sextetVal_sextetChar_fin ⟨n, h⟩

/-- Helper: `sextetChar` is never `'='`, `Nat` form. -/
theorem sextetChar_ne_pad (n : Nat) (h : n < 64) : ¬(sextetChar n = '=') :=
  sextetChar_ne_pad_fin ⟨n, h⟩

/-- Helper: `sextetChar` is never `'.'`, `Nat` form. -/
theorem sextetChar_ne_dot (n : Nat) (h : n < 64) : ¬(sextetChar n = '.') :=
  sextetChar_ne_dot_fin ⟨n, h⟩

/-- Helper: base64 decoding inverts base64 encoding. -/
theorem b64DecodeList_b64EncodeList (bs : List Byte) :
    b64DecodeList (b64EncodeList bs) = some bs := by
  induction bs using b64EncodeList.induct with
  | case1 =>
    rfl
  | case2 b1 =>
    have hb1 := b1.isLt
    unfold b64EncodeList b64DecodeList
    rw [sextetVal_sextetChar _ (by omega), sextetVal_sextetChar _ (by omega)]
    simp only []
    simp
    apply Fin.ext
    simp [mkByte]
    omega
  | case3 b1 b2 =>
    have hb1 := b1.isLt
    have hb2 := b2.isLt
    unfold b64EncodeList b64DecodeList
    rw [sextetVal_sextetChar _ (by omega), sextetVal_sextetChar _ (by omega),
        sextetVal_sextetChar _ (by omega)]
    have h3 : ¬(sextetChar (b2.val % 16 * 4) = '=') := sextetChar_ne_pad _ (by omega)
    simp [h3]
    constructor
    all_goals
      apply Fin.ext
      simp [mkByte]
      omega
  | case4 b1 b2 b3 rest ih =>
    have hb1 := b1.isLt
    have hb2 := b2.isLt
    have hb3 := b3.isLt
    unfold b64EncodeList b64DecodeList
    rw [sextetVal_sextetChar _ (by omega), sextetVal_sextetChar _ (by omega),
        sextetVal_sextetChar _ (by omega), sextetVal_sextetChar _ (by omega)]
    have h3 : ¬(sextetChar (b2.val % 16 * 4 + b3.val / 64) = '=') :=
      sextetChar_ne_pad _ (by omega)
    have h4 : ¬(sextetChar (b3.val % 64) = '=') := sextetChar_ne_pad _ (by omega)
    simp [h3, h4, ih]
    refine ⟨?_, ?_, ?_⟩
    all_goals
      apply Fin.ext
      simp [mkByte]
      omega

/-- Helper: base64 output never contains the `.` separator. -/
theorem b64EncodeList_no_dot (bs : List Byte) : ¬(('.' : Char) ∈ b64EncodeList bs) := by
  induction bs using b64EncodeList.induct with
  | case1 => simp [b64EncodeList]
  | case2 b1 =>
    have hb1 := b1.isLt
    unfold b64EncodeList
    intro hmem
    simp only [List.mem_cons, List.not_mem_nil, or_false] at hmem
    rcases hmem with h | h | h | h
    · exact sextetChar_ne_dot _ (by omega) h.symm
    · exact sextetChar_ne_dot _ (by omega) h.symm
    · exact absurd h (by decide)
    · exact absurd h (by decide)
  | case3 b1 b2 =>
    have hb1 := b1.isLt
    have hb2 := b2.isLt
    unfold b64EncodeList
    intro hmem
    simp only [List.mem_cons, List.not_mem_nil, or_false] at hmem
    rcases hmem with h | h | h | h
    · exact sextetChar_ne_dot _ (by omega) h.symm
    · exact sextetChar_ne_dot _ (by omega) h.symm
    · exact sextetChar_ne_dot _ (by omega) h.symm
    · exact absurd h (by decide)
  | case4 b1 b2 b3 rest ih =>
    have hb1 := b1.isLt
    have hb2 := b2.isLt
    have hb3 := b3.isLt
    unfold b64EncodeList
    intro hmem
    simp only [List.mem_cons] at hmem
    rcases hmem with h | h | h | h | h
    · exact sextetChar_ne_dot _ (by omega) h.symm
    · exact sextetChar_ne_dot _ (by omega) h.symm
    · exact sextetChar_ne_dot _ (by omega) h.symm
    · exact sextetChar_ne_dot _ (by omega) h.symm
    · exact ih h

end GiftAidPortal.Vault

namespace GiftAidPortal.Vault

/-- Helper: scanning a dot-free chunk just accumulates it. -/
theorem splitOnDotAux_no_dot (x : List Char) :
    ∀ acc : List Char, ¬(('.' : Char) ∈ x) →
      splitOnDotAux x acc = [⟨acc.reverse ++ x⟩] := by
  induction x with
  | nil => intro acc _; simp [splitOnDotAux]
  | cons c cs ih =>
    intro acc h
    have hc : ¬(c = '.') := fun hcc => h (hcc ▸ List.mem_cons_self c cs)
    have hcs : ¬(('.' : Char) ∈ cs) := fun hm => h (List.mem_cons_of_mem c hm)
    simp only [splitOnDotAux, if_neg hc]
    rw [ih (c :: acc) hcs]
    simp

/-- Helper: scanning up to a separator emits the accumulated chunk. -/
theorem splitOnDotAux_chunk (x : List Char) :
    ∀ (r acc : List Char), ¬(('.' : Char) ∈ x) →
      splitOnDotAux (x ++ '.' :: r) acc
        = ⟨acc.reverse ++ x⟩ :: splitOnDotAux r [] := by
  induction x with
  | nil =>
    intro r acc _
    simp [splitOnDotAux]
  | cons c cs ih =>
    intro r acc h
    have hc : ¬(c = '.') := fun hcc => h (hcc ▸ List.mem_cons_self c cs)
    have hcs : ¬(('.' : Char) ∈ cs) := fun hm => h (List.mem_cons_of_mem c hm)
    simp only [List.cons_append, List.append_eq, splitOnDotAux, if_neg hc]
    rw [ih r (c :: acc) hcs]
    simp

/-- Helper: rebuilding a string from its own data is the identity. -/
theorem strExt_mk (s : String) : String.mk s.data = s := by
  cases s; rfl

/-- Helper: splitting `a ++ "." ++ b ++ "." ++ c` with dot-free components
yields exactly the three components. -/
theorem splitOnDot_three (a b c : String)
    (ha : ¬(('.' : Char) ∈ a.data)) (hb : ¬(('.' : Char) ∈ b.data))
    (hc : ¬(('.' : Char) ∈ c.data)) :
    splitOnDot (a ++ "." ++ b ++ "." ++ c) = [a, b, c] := by
  unfold splitOnDot
  have hdata : (a ++ "." ++ b ++ "." ++ c).data
      = a.data ++ '.' :: (b.data ++ '.' :: c.data) := by
    simp [String.data_append]
  rw [hdata, splitOnDotAux_chunk a.data (b.data ++ '.' :: c.data) [] ha,
      splitOnDotAux_chunk b.data c.data [] hb, splitOnDotAux_no_dot c.data [] hc]
  simp [strExt_mk]

/-- Helper: XOR with the same byte twice is the identity. -/
theorem byteXor_byteXor (a k : Byte) : byteXor (byteXor a k) k = a := by
  apply Fin.ext
  simp [byteXor, Nat.xor_assoc]

/-- Helper: the counter-mode mask is an involution. -/
theorem ctrXor_ctrXor (mask : List Byte → List Byte → Nat → Byte) (key iv : List Byte) :
    ∀ (i : Nat) (l : List Byte), ctrXor mask key iv i (ctrXor mask key iv i l) = l := by
  intro i l
  induction l generalizing i with
  | nil => rfl
  | cons b rest ih =>
    simp only [ctrXor, byteXor_byteXor]
    rw [ih (i + 1)]

end GiftAidPortal.Vault

namespace GiftAidPortal

open Vault in
/-- Claim C7: for every credential object and every configured secret of
accepted length (≥ 16), `decryptJson` inverts `encryptJson` exactly
(given the serialization contract of the external JSON codec: `deser`
undoes `ser`) — and this holds for EVERY keystream and tag function, i.e.
for any behaviour of the external AES-256-GCM core.  Tampering fails
closed: replacing the authentication-tag component by any different byte
string is rejected with the authentication error before any plaintext is
produced; and replacing the ciphertext component by any byte string whose
recomputed tag differs from the stored tag — the guarantee GCM's GHASH
provides for every altered ciphertext — is likewise rejected.  In both
tampered cases the result is the authentication error, never a decrypted
value. -/
theorem encryptJson_roundtrip_and_fail_closed {α : Type}
    (mask : List Vault.Byte → List Vault.Byte → Nat → Vault.Byte)
    (mac : List Vault.Byte → List Vault.Byte → List Vault.Byte → List Vault.Byte)
    (h32 : String → List Vault.Byte) (ser : α → List Vault.Byte)
    (deser : List Vault.Byte → Except String α)
    (secret : String) (iv : List Vault.Byte) (obj : α)
    (hsec : 16 ≤ secret.length)
    (hcodec : ∀ o : α, deser (ser o) = Except.ok o) :
    Vault.encryptJson mask mac h32 ser secret iv obj
      = Except.ok (Vault.b64Encode iv ++ "."
          ++ Vault.b64Encode (mac (h32 secret) iv
               (Vault.ctrXor mask (h32 secret) iv 0 (ser obj))) ++ "."
          ++ Vault.b64Encode (Vault.ctrXor mask (h32 secret) iv 0 (ser obj)))
    ∧ Vault.decryptJson mask mac h32 deser secret
        (Vault.b64Encode iv ++ "."
          ++ Vault.b64Encode (mac (h32 secret) iv
               (Vault.ctrXor mask (h32 secret) iv 0 (ser obj))) ++ "."
          ++ Vault.b64Encode (Vault.ctrXor mask (h32 secret) iv 0 (ser obj)))
        = Except.ok obj
    ∧ (∀ tag2 : List Vault.Byte,
        ¬(tag2 = mac (h32 secret) iv (Vault.ctrXor mask (h32 secret) iv 0 (ser obj))) →
        Vault.decryptJson mask mac h32 deser secret
          (Vault.b64Encode iv ++ "." ++ Vault.b64Encode tag2 ++ "."
            ++ Vault.b64Encode (Vault.ctrXor mask (h32 secret) iv 0 (ser obj)))
          = Except.error "Unsupported state or unable to authenticate data")
    ∧ (∀ ct2 : List Vault.Byte,
        ¬(mac (h32 secret) iv ct2
            = mac (h32 secret) iv (Vault.ctrXor mask (h32 secret) iv 0 (ser obj))) →
        Vault.decryptJson mask mac h32 deser secret
          (Vault.b64Encode iv ++ "."
            ++ Vault.b64Encode (mac (h32 secret) iv
                 (Vault.ctrXor mask (h32 secret) iv 0 (ser obj))) ++ "."
            ++ Vault.b64Encode ct2)
          = Except.error "Unsupported state or unable to authenticate data") := by
  have hkey : Vault.getKey h32 secret = Except.ok (h32 secret) := by
    unfold Vault.getKey
    rw [if_neg (by omega)]
  have hsplit : ∀ x y z : List Vault.Byte,
      Vault.splitOnDot (Vault.b64Encode x ++ "." ++ Vault.b64Encode y ++ "."
        ++ Vault.b64Encode z) = [Vault.b64Encode x, Vault.b64Encode y, Vault.b64Encode z] :=
    fun x y z =>
      Vault.splitOnDot_three (Vault.b64Encode x) (Vault.b64Encode y) (Vault.b64Encode z)
        (Vault.b64EncodeList_no_dot x) (Vault.b64EncodeList_no_dot y)
        (Vault.b64EncodeList_no_dot z)
  have hdec : ∀ x : List Vault.Byte, Vault.b64Decode (Vault.b64Encode x) = some x :=
    fun x => Vault.b64DecodeList_b64EncodeList x
  refine ⟨?_, ?_, ?_, ?_⟩
  · unfold Vault.encryptJson
    rw [hkey]
  · unfold Vault.decryptJson
    rw [hkey, hsplit]
    simp only [hdec, if_true]
    rw [Vault.ctrXor_ctrXor, hcodec]
  · intro tag2 htag
    unfold Vault.decryptJson
    rw [hkey, hsplit]
    simp only [hdec]
    rw [if_neg (fun heq => htag heq.symm)]
  · intro ct2 hct
    unfold Vault.decryptJson
    rw [hkey, hsplit]
    simp only [hdec]
    rw [if_neg hct]

/-- Witness for `encryptJson_roundtrip_and_fail_closed`: a concrete
instantiation (unit credential object, empty serialization, identity tag)
round-trips through the `iv.tag.ciphertext` payload `".."`, and the
payload `".AQ==."` — the same with its tag component replaced — is
rejected with the authentication error. -/
theorem encryptJson_roundtrip_witness :
    Vault.decryptJson (fun _ _ _ => (0 : Vault.Byte)) (fun _ _ c => c) (fun _ => [])
      (fun bs => if bs = [] then Except.ok () else Except.error "bad")
      "0123456789abcdef" ".."
      = Except.ok ()
    ∧ Vault.decryptJson (fun _ _ _ => (0 : Vault.Byte)) (fun _ _ c => c) (fun _ => [])
      (fun bs => if bs = [] then Except.ok () else Except.error "bad")
      "0123456789abcdef" ".AQ==."
      = Except.error "Unsupported state or unable to authenticate data" := by
  have h := encryptJson_roundtrip_and_fail_closed
    (fun _ _ _ => (0 : Vault.Byte)) (fun _ _ c => c) (fun _ => []) (fun _ => [])
    (fun bs => if bs = [] then Except.ok () else Except.error "bad")
    "0123456789abcdef" [] () (by decide) (fun _ => rfl)
  exact ⟨h.2.1, h.2.2.1 [(1 : Fin 256)] (by decide)⟩

end GiftAidPortal
